import Mathlib

/-!
# mutti: image-bake workflow and wait loops

A shallow embedding of `src/templates/index.js` (`createInstanceAndImage`,
`waitForConnectivity`), of the wait loops `waitForImageState` and
`waitForInstanceState`, `stopInstance` and `deleteInstance` of
`src/aws/index.js`, of `deleteInstance` of `src/gcloud/index.js` and
`src/docker/index.js`, and of `create` of `src/factory.js` with the export
tables of the three adapter modules.

Asynchronous code is embedded by explicit state passing over a `World` that
records, in order, every provider call, network probe, sleep and log call.
The collaborators (provider adapter, `fetch`, the EC2, compute and docker
clients) are scripted:
their n-th call answers with the n-th entry of a script, and the arguments of
each call are recorded in the trace.
-/

namespace Mutti

/-! ## JavaScript values -/

/-- The JavaScript values that flow through the workflow. -/
inductive JsVal where
  | undefined
  | null
  | bool (b : Bool)
  | num (n : Int)
  | str (s : String)
  | obj (tag : String)
  deriving DecidableEq, Repr

/-- JavaScript truthiness, as used by `!x` and `if (x)`. -/
def truthy : JsVal → Bool
  | .undefined => false
  | .null => false
  | .bool b => b
  | .num n => decide (n ≠ 0)
  | .str s => decide (s ≠ "")
  | .obj _ => true

/-- String conversion as performed by a template literal. -/
def toStr : JsVal → String
  | .undefined => "undefined"
  | .null => "null"
  | .bool b => if b then "true" else "false"
  | .num n => toString n
  | .str s => s
  | .obj _ => "[object Object]"

/-- A thrown JavaScript error object; `type` and `code` are the fields that
`node-fetch` sets on its errors. -/
structure JsError where
  name : String
  message : String
  type : JsVal
  code : JsVal
  deriving DecidableEq, Repr

/-- The object built by `new Error(msg)`. -/
def mkError (msg : String) : JsError :=
  { name := "Error", message := msg, type := .undefined, code := .undefined }

/-- The error raised by a property access on `undefined` or by calling a
property that is not a function. -/
def typeError (msg : String) : JsError :=
  { name := "TypeError", message := msg, type := .undefined, code := .undefined }

/-- How a promise ends: it resolves, it rejects, or it never settles. -/
inductive Completion (α : Type) where
  | resolved (v : α)
  | rejected (e : JsError)
  | pending
  deriving DecidableEq, Repr

/-! ## Collaborators and the observable world -/

/-- The argument object handed to `provider.createInstance`. -/
structure CreateSpec where
  startupScript : JsVal
  imageId : JsVal
  keyName : JsVal
  machineType : JsVal
  diskSize : JsVal
  deriving DecidableEq, Repr

/-- One observable step of a run. -/
inductive Event where
  | createInstance (spec : CreateSpec)
  | getPublicInstanceAddress (instanceId : JsVal)
  | stopInstance (instanceId : JsVal) (awaitShutdown : Bool)
  | createImage (instanceId : JsVal) (imageName : JsVal)
  | deleteInstance (instanceId : JsVal)
  | fetch (url : String) (timeoutMs : Nat)
  | sleep (sec : Nat)
  | log (level : String)
  | describeImage (imageId : JsVal)
  | describeInstance (instanceId : JsVal)
  | ec2StopInstances (instanceId : JsVal)
  | ec2TerminateInstances (instanceId : JsVal)
  | vmDelete (zoneName : JsVal) (vmName : JsVal)
  | inspect (instanceId : JsVal)
  | kill (instanceId : JsVal)
  | consoleError
  deriving DecidableEq, Repr

/-- The trace of a run plus the number of calls each scripted collaborator
has answered so far. -/
structure World where
  trace : List Event
  addressPolls : Nat
  probes : Nat
  imageChecks : Nat
  instanceChecks : Nat := 0
  deriving DecidableEq, Repr

/-- The world before anything happened. -/
def World.init : World :=
  { trace := [], addressPolls := 0, probes := 0, imageChecks := 0 }

/-- Append one event to the trace. -/
def World.record (w : World) (e : Event) : World :=
  { w with trace := w.trace ++ [e] }

/-- `sleep(sleepInSec)` of both modules: the only effect is the passing of
`sleepInSec` seconds. -/
def sleep (sleepInSec : Nat) (w : World) : World :=
  w.record (.sleep sleepInSec)

/-- A call `logger.<level>(...)`; `logger` says whether a logger object was
supplied. Without one the property access throws a `TypeError`. -/
def logCall (logger : Bool) (level : String) (w : World) : Except JsError World :=
  if logger then .ok (w.record (.log level))
  else .error (typeError ("Cannot read property " ++ level ++ " of undefined"))

/-- A stub provider. An operation the adapter object does not define is
`none`; a defined operation answers from its script. -/
structure Provider where
  createInstance : Option (Except JsError JsVal)
  getPublicInstanceAddress : Option (Nat → Except JsError JsVal)
  stopInstance : Option (Except JsError JsVal)
  createImage : Option (Except JsError JsVal)
  deleteInstance : Option (Except JsError JsVal)

/-- What one `fetch` followed by `output.text()` gives. -/
inductive FetchOutcome where
  | body (text : String)
  | error (e : JsError)
  deriving DecidableEq, Repr

/-- Everything outside the workflow: the provider and the network. -/
structure Env where
  provider : Provider
  fetch : Nat → FetchOutcome

/-- A call `provider.<name>(...)` of an operation that is called with fixed
arguments; the call is recorded when the operation exists. -/
def callOp (op : Option (Except JsError JsVal)) (name : String) (ev : Event)
    (w : World) : Except JsError JsVal × World :=
  match op with
  | none => (.error (typeError ("provider." ++ name ++ " is not a function")), w)
  | some r => (r, w.record ev)

/-- A call `provider.getPublicInstanceAddress(instanceId)`. -/
def callGetPublicInstanceAddress (p : Provider) (instanceId : JsVal) (w : World) :
    Except JsError JsVal × World :=
  match p.getPublicInstanceAddress with
  | none => (.error (typeError "provider.getPublicInstanceAddress is not a function"), w)
  | some script =>
    (script w.addressPolls,
      { w.record (.getPublicInstanceAddress instanceId) with
        addressPolls := w.addressPolls + 1 })

/-! ## `src/templates/index.js` -/

/-- The options object of `waitForConnectivity`, with its defaults. -/
structure ConnectivityOpts where
  port : Nat := 80
  timeoutInSec : Nat := 3000
  pollFrequencyInSec : Nat := 10
  logger : Bool

/-- The closure `isConditionMet(timeout)` of `waitForConnectivity`
(lines 54-72). -/
def isConditionMet (env : Env) (logger : Bool) (publicUrl : JsVal) (timeout : Nat)
    (w : World) : Completion JsVal × World :=
  let w1 : World :=
    { w.record (.fetch ("http://" ++ toStr publicUrl) (timeout * 1000)) with
      probes := w.probes + 1 }
  match env.fetch w.probes with
  | .body text => (.resolved (.str text), w1)
  | .error e =>
    if e.type = .str "request-timeout" then (.resolved .null, w1)
    else if e.code = .str "ECONNREFUSED" then (.resolved .null, sleep timeout w1)
    else
      match logCall logger "error" w1 with
      | .error err => (.rejected err, w1)
      | .ok w2 => (.resolved .undefined, w2)

/-- The `while (accumulatedTime < timeoutInSec)` loop of `waitForConnectivity`
(lines 74-83). `fuel` bounds the number of iterations the model runs; `none`
means the bound was reached before the loop ended. An exception inside the
async executor leaves the promise unsettled. -/
def connectivityLoop (env : Env) (logger : Bool) (publicUrl : JsVal)
    (timeoutInSec pollFrequencyInSec : Nat) :
    Nat → Nat → World → Option (Completion JsVal × World)
  | fuel, accumulatedTime, w =>
    if accumulatedTime < timeoutInSec then
      match fuel with
      | 0 => none
      | fuel + 1 =>
        match isConditionMet env logger publicUrl pollFrequencyInSec w with
        | (.rejected _, w1) => some (.pending, w1)
        | (.pending, w1) => some (.pending, w1)
        | (.resolved body, w1) =>
          if body ≠ .null ∧ body ≠ .undefined then some (.resolved body, w1)
          else
            match logCall logger "debug" w1 with
            | .error _ => some (.pending, w1)
            | .ok w2 =>
              connectivityLoop env logger publicUrl timeoutInSec pollFrequencyInSec
                fuel (accumulatedTime + pollFrequencyInSec) w2
    else some (.resolved .null, w)

/-- `waitForConnectivity(publicUrl, { port, timeoutInSec, pollFrequencyInSec,
logger })` (lines 48-85). -/
def waitForConnectivity (env : Env) (fuel : Nat) (publicUrl : JsVal)
    (opts : ConnectivityOpts) (w : World) : Option (Completion JsVal × World) :=
  if truthy publicUrl = false then
    some (.rejected (mkError "Wait for connectivity is missing public URL"), w)
  else
    match logCall opts.logger "info" w with
    | .error _ => some (.pending, w)
    | .ok w1 =>
      connectivityLoop env opts.logger publicUrl opts.timeoutInSec
        opts.pollFrequencyInSec fuel 0 w1

/-- The argument object of `createInstanceAndImage`. -/
structure BakeArgs where
  image : JsVal
  imageName : JsVal
  startupScript : JsVal
  keyName : JsVal
  machineType : JsVal
  diskSize : JsVal
  logger : Bool

/-- The `for (let i = 0; i < publicUrlRetries; ++i)` loop of
`createInstanceAndImage` (lines 21-28); the first argument is the number of
iterations left, `publicUrlRetries - i`. It returns the final value of
`publicUrl`. -/
def addressLoop (p : Provider) (logger : Bool) (instanceId : JsVal) :
    Nat → JsVal → World → Except JsError JsVal × World
  | 0, publicUrl, w => (.ok publicUrl, w)
  | left + 1, _, w =>
    match callGetPublicInstanceAddress p instanceId w with
    | (.error e, w1) => (.error e, w1)
    | (.ok publicUrl, w1) =>
      if truthy publicUrl then (.ok publicUrl, w1)
      else
        match logCall logger "info" w1 with
        | .error e => (.error e, w1)
        | .ok w2 => addressLoop p logger instanceId left publicUrl (sleep 5 w2)

/-- Lines 38-45 of `createInstanceAndImage`: stop, image, delete. -/
def stopImageDelete (p : Provider) (args : BakeArgs) (instanceId : JsVal) (w : World) :
    Completion JsVal × World :=
  match callOp p.stopInstance "stopInstance" (.stopInstance instanceId true) w with
  | (.error e, w1) => (.rejected e, w1)
  | (.ok _, w1) =>
    match callOp p.createImage "createImage" (.createImage instanceId args.imageName) w1 with
    | (.error e, w2) => (.rejected e, w2)
    | (.ok imageId, w2) =>
      match logCall args.logger "info" w2 with
      | .error e => (.rejected e, w2)
      | .ok w3 =>
        match callOp p.deleteInstance "deleteInstance" (.deleteInstance instanceId) w3 with
        | (.error e, w4) => (.rejected e, w4)
        | (.ok _, w4) => (.resolved imageId, w4)

/-- Lines 33-45 of `createInstanceAndImage`: everything after a public
address was obtained. -/
def bakeFromAddress (env : Env) (fuel : Nat) (args : BakeArgs) (instanceId publicUrl : JsVal)
    (w : World) : Option (Completion JsVal × World) :=
  match waitForConnectivity env fuel publicUrl { logger := args.logger } w with
  | none => none
  | some (.rejected e, w1) => some (.rejected e, w1)
  | some (.pending, w1) => some (.pending, w1)
  | some (.resolved body, w1) =>
    if truthy body = false then some (.resolved .null, w1)
    else some (stopImageDelete env.provider args instanceId w1)

/-- Lines 19-45 of `createInstanceAndImage`: everything after the instance
was created and logged. -/
def bakeInstance (env : Env) (fuel : Nat) (args : BakeArgs) (instanceId : JsVal)
    (w : World) : Option (Completion JsVal × World) :=
  match addressLoop env.provider args.logger instanceId 10 .null w with
  | (.error e, w1) => some (.rejected e, w1)
  | (.ok publicUrl, w1) =>
    if truthy publicUrl = false then
      match logCall args.logger "error" w1 with
      | .error e => some (.rejected e, w1)
      | .ok w2 => some (.rejected (mkError "Unable to get public url for instance."), w2)
    else bakeFromAddress env fuel args instanceId publicUrl w1

/-- The argument object `{ startupScript, imageId: baseImageId, keyName,
machineType, diskSize }` of line 16. -/
def createSpecOf (args : BakeArgs) : CreateSpec :=
  { startupScript := args.startupScript, imageId := args.image, keyName := args.keyName,
    machineType := args.machineType, diskSize := args.diskSize }

/-- `createInstanceAndImage(provider, { image, imageName, startupScript,
keyName, machineType, diskSize, logger })` (lines 8-46). -/
def createInstanceAndImage (env : Env) (fuel : Nat) (args : BakeArgs) (w : World) :
    Option (Completion JsVal × World) :=
  if truthy args.startupScript = false then
    some (.rejected (mkError
      "Startup script is missing. The action will never return without HTTP signaling"), w)
  else if truthy args.imageName = false then
    some (.rejected (mkError "Target image name is missing."), w)
  else
    match callOp env.provider.createInstance "createInstance"
        (.createInstance (createSpecOf args)) w with
    | (.error e, w1) => some (.rejected e, w1)
    | (.ok instanceId, w1) =>
      match logCall args.logger "info" w1 with
      | .error e => some (.rejected e, w1)
      | .ok w2 => bakeInstance env fuel args instanceId w2

/-- The provider calls of a trace, in order. -/
def providerCalls (t : List Event) : List Event :=
  t.filter fun e =>
    match e with
    | .createInstance _ => true
    | .getPublicInstanceAddress _ => true
    | .stopInstance _ _ => true
    | .createImage _ _ => true
    | .deleteInstance _ => true
    | _ => false

/-- The total number of seconds slept in a trace. -/
def sleptTotal : List Event → Nat
  | [] => 0
  | .sleep sec :: t => sec + sleptTotal t
  | _ :: t => sleptTotal t

/-- The number of network probes in a trace. -/
def probeCount (t : List Event) : Nat :=
  (t.filter fun e => match e with
    | .fetch _ _ => true
    | _ => false).length

/-- The number of `describeImage` calls in a trace. -/
def imageCheckCount (t : List Event) : Nat :=
  (t.filter fun e => match e with
    | .describeImage _ => true
    | _ => false).length

/-- The events of `n` address polls that each found no address. -/
def pollEvents (instanceId : JsVal) : Nat → List Event
  | 0 => []
  | n + 1 =>
    [.getPublicInstanceAddress instanceId, .log "info", .sleep 5] ++ pollEvents instanceId n

/-- Whether `isConditionMet` sleeps on this error: it is not a request
timeout and its code is `ECONNREFUSED`. -/
def isRefusal (e : JsError) : Bool :=
  decide (e.type ≠ .str "request-timeout" ∧ e.code = .str "ECONNREFUSED")

/-- The events of one loop iteration whose probe threw `e`. -/
def failedProbeEvents (url : String) (pollFrequencyInSec : Nat) (e : JsError) : List Event :=
  if e.type = .str "request-timeout" then
    [.fetch url (pollFrequencyInSec * 1000), .log "debug"]
  else if e.code = .str "ECONNREFUSED" then
    [.fetch url (pollFrequencyInSec * 1000), .sleep pollFrequencyInSec, .log "debug"]
  else
    [.fetch url (pollFrequencyInSec * 1000), .log "error", .log "debug"]

/-- The events of the loop iterations for probes `start, ..., start + n - 1`
when each of them threw. -/
def failedProbesEvents (fetch : Nat → FetchOutcome) (url : String) (pollFrequencyInSec : Nat) :
    Nat → Nat → List Event
  | _, 0 => []
  | start, n + 1 =>
    (match fetch start with
      | .error e => failedProbeEvents url pollFrequencyInSec e
      | .body _ => []) ++
    failedProbesEvents fetch url pollFrequencyInSec (start + 1) n

/-- The number of probes among `start, ..., start + n - 1` that were refused. -/
def refusalCount (fetch : Nat → FetchOutcome) : Nat → Nat → Nat
  | _, 0 => 0
  | start, n + 1 =>
    (match fetch start with
      | .error e => if isRefusal e then 1 else 0
      | .body _ => 0) + refusalCount fetch (start + 1) n

/-! ## `src/aws/index.js` -/

/-- One entry of `Images` in the answer of `ec2.describeImages`. -/
structure ImageRecord where
  ImageId : JsVal
  State : JsVal
  deriving DecidableEq, Repr

/-- The answer object of `ec2.describeImages`; `Images` may be absent. -/
structure ImageList where
  Images : Option (List ImageRecord)
  deriving DecidableEq, Repr

/-- The module state of the aws adapter that the wait loop reads: whether
`init` stored a logger, and the scripted answers of `ec2.describeImages`
(an error, or the answer object, which may be null). -/
structure AwsEnv where
  logger : Bool
  describeImages : Nat → Except JsError (Option ImageList)

/-- The options object of `waitForImageState`, with its default. -/
structure WaitOpts where
  timeoutInSec : Nat := 10000

/-- `describeImage(imageId)` (lines 168-181). When the callback itself throws
(no logger to report the error to) the promise never settles. -/
def describeImage (env : AwsEnv) (imageId : JsVal) (w : World) :
    Completion (Option ImageList) × World :=
  let w1 : World := { w.record (.describeImage imageId) with imageChecks := w.imageChecks + 1 }
  match env.describeImages w.imageChecks with
  | .error e =>
    match logCall env.logger "error" w1 with
    | .error _ => (.pending, w1)
    | .ok w2 => (.rejected e, w2)
  | .ok imageList => (.resolved imageList, w1)

/-- The expression `description && description.Images && description.Images[0]`
(line 113); `none` stands for a falsy value. -/
def firstImage (description : Option ImageList) : Option ImageRecord :=
  match description with
  | none => none
  | some d =>
    match d.Images with
    | none => none
    | some images => images.head?

/-- The test `image && image.ImageId === imageId && image.State === state`
(line 114). -/
def imageReady (description : Option ImageList) (imageId state : JsVal) : Bool :=
  match firstImage description with
  | none => false
  | some image => decide (image.ImageId = imageId ∧ image.State = state)

/-- The error of line 121: `Timeout awaiting state: <state> of image:
<imageId>`. -/
def imageTimeoutError (imageId state : JsVal) : JsError :=
  mkError ("Timeout awaiting state: " ++ toStr state ++ " of image: " ++ toStr imageId)

/-- The `for (let t = 0; t < timeoutInSec; t += sleepTimeInSec)` loop of
`waitForImageState` (lines 110-121), with `sleepTimeInSec = 5`. `fuel` bounds
the number of iterations the model runs. An exception inside the async
executor leaves the promise unsettled. -/
def imageStateLoop (env : AwsEnv) (imageId state : JsVal) (timeoutInSec : Nat) :
    Nat → Nat → World → Option (Completion (Option ImageRecord) × World)
  | fuel, t, w =>
    if t < timeoutInSec then
      match fuel with
      | 0 => none
      | fuel + 1 =>
        match describeImage env imageId w with
        | (.rejected _, w1) => some (.pending, w1)
        | (.pending, w1) => some (.pending, w1)
        | (.resolved description, w1) =>
          if imageReady description imageId state then
            some (.resolved (firstImage description), w1)
          else
            match logCall env.logger "debug" w1 with
            | .error _ => some (.pending, w1)
            | .ok w2 => imageStateLoop env imageId state timeoutInSec fuel (t + 5) (sleep 5 w2)
    else some (.rejected (imageTimeoutError imageId state), w)

/-- `waitForImageState(imageId, state, { timeoutInSec })` (lines 108-123). -/
def waitForImageState (env : AwsEnv) (fuel : Nat) (imageId state : JsVal)
    (opts : WaitOpts) (w : World) : Option (Completion (Option ImageRecord) × World) :=
  imageStateLoop env imageId state opts.timeoutInSec fuel 0 w

/-- The events of `n` image checks that each found the image not ready. -/
def imageWaitEvents (imageId : JsVal) : Nat → List Event
  | 0 => []
  | n + 1 => [.describeImage imageId, .log "debug", .sleep 5] ++ imageWaitEvents imageId n

/-- The quotient `a / b` rounded up. -/
def ceilDiv (a b : Nat) : Nat := (a + b - 1) / b

/-! ## `src/aws/index.js`: instances -/

/-- The `State` object of an instance record. -/
structure InstanceState where
  Name : JsVal
  deriving DecidableEq, Repr

/-- One entry of `Instances`; `State` may be absent. -/
structure InstanceRecord where
  State : Option InstanceState
  deriving DecidableEq, Repr

/-- One entry of `Reservations`; `Instances` may be absent. -/
structure Reservation where
  Instances : Option (List InstanceRecord)
  deriving DecidableEq, Repr

/-- The answer object of `ec2.describeInstances`; `Reservations` may be
absent. -/
structure InstanceDescription where
  Reservations : Option (List Reservation)
  deriving DecidableEq, Repr

/-- The aws adapter with the EC2 calls on instances: the scripted answers
`(error, data)` of `ec2.describeInstances`, `ec2.stopInstances` and
`ec2.terminateInstances`. -/
structure AwsAdapter extends AwsEnv where
  describeInstances : Nat → Except JsError (Option InstanceDescription)
  stopInstances : Except JsError JsVal
  terminateInstances : Option JsError × JsVal

/-- `describeInstance(instanceId)` (lines 183-197). When the callback itself
throws (no logger to report the error to) the promise never settles. -/
def describeInstance (env : AwsAdapter) (instanceId : JsVal) (w : World) :
    Completion (Option InstanceDescription) × World :=
  let w1 : World :=
    { w.record (.describeInstance instanceId) with instanceChecks := w.instanceChecks + 1 }
  match env.describeInstances w.instanceChecks with
  | .error e =>
    match logCall env.logger "error" w1 with
    | .error _ => (.pending, w1)
    | .ok w2 => (.rejected e, w2)
  | .ok data => (.resolved data, w1)

/-- The expression of lines 92-96, `description && description.Reservations &&
description.Reservations.length > 0 && description.Reservations[0].Instances &&
description.Reservations[0].Instances[0]`; `none` stands for each of its falsy
values (`null`, `undefined`, `false`). -/
def firstInstance (description : Option InstanceDescription) : Option InstanceRecord :=
  match description with
  | none => none
  | some d =>
    match d.Reservations with
    | none => none
    | some [] => none
    | some (reservation :: _) =>
      match reservation.Instances with
      | none => none
      | some instances => instances.head?

/-- The test `instance && instance.State && instance.State.Name === state`
(line 97). -/
def instanceInState (description : Option InstanceDescription) (state : JsVal) : Bool :=
  match firstInstance description with
  | none => false
  | some record =>
    match record.State with
    | none => false
    | some st => decide (st.Name = state)

/-- The error of line 104: `Timeout awaiting state: <state> of instance:
<instanceId>`. -/
def instanceTimeoutError (instanceId state : JsVal) : JsError :=
  mkError ("Timeout awaiting state: " ++ toStr state ++ " of instance: " ++ toStr instanceId)

/-- The `for (let t = 0; t < timeoutInSec; t += sleepTimeInSec)` loop of
`waitForInstanceState` (lines 90-104), with `sleepTimeInSec = 5`. `fuel`
bounds the number of iterations the model runs. The else branch of line 100
evaluates `instance.State.Name` without a guard: when `instance` is falsy or
has no `State` that access throws a `TypeError` inside the async executor,
which leaves the promise unsettled. -/
def instanceStateLoop (env : AwsAdapter) (instanceId state : JsVal) (timeoutInSec : Nat) :
    Nat → Nat → World → Option (Completion (Option InstanceDescription) × World)
  | fuel, t, w =>
    if t < timeoutInSec then
      match fuel with
      | 0 => none
      | fuel + 1 =>
        match describeInstance env instanceId w with
        | (.rejected _, w1) => some (.pending, w1)
        | (.pending, w1) => some (.pending, w1)
        | (.resolved description, w1) =>
          if instanceInState description state then some (.resolved description, w1)
          else
            match firstInstance description with
            | none => some (.pending, w1)
            | some record =>
              match record.State with
              | none => some (.pending, w1)
              | some _ =>
                match logCall env.logger "debug" w1 with
                | .error _ => some (.pending, w1)
                | .ok w2 =>
                  instanceStateLoop env instanceId state timeoutInSec fuel (t + 5) (sleep 5 w2)
    else some (.rejected (instanceTimeoutError instanceId state), w)

/-- `waitForInstanceState(instanceId, state, { timeoutInSec })`
(lines 87-106). -/
def waitForInstanceState (env : AwsAdapter) (fuel : Nat) (instanceId state : JsVal)
    (opts : WaitOpts) (w : World) :
    Option (Completion (Option InstanceDescription) × World) :=
  instanceStateLoop env instanceId state opts.timeoutInSec fuel 0 w

/-- `stopInstance(instanceId, { awaitShutdown })` of the aws adapter
(lines 125-146). The callback of `ec2.stopInstances` is an async function:
when its `await waitForInstanceState(...)` throws, neither `resolve` nor
`reject` is ever called. -/
def stopInstance (env : AwsAdapter) (fuel : Nat) (instanceId : JsVal) (awaitShutdown : Bool)
    (w : World) : Option (Completion JsVal × World) :=
  let w1 : World := w.record (.ec2StopInstances instanceId)
  match env.stopInstances with
  | .error e =>
    match logCall env.logger "error" w1 with
    | .error _ => some (.pending, w1)
    | .ok w2 => some (.rejected e, w2)
  | .ok data =>
    if truthy data = false then
      match logCall env.logger "error" w1 with
      | .error _ => some (.pending, w1)
      | .ok w2 =>
        some (.rejected (mkError ("No data for given for instance: " ++ toStr instanceId)), w2)
    else if awaitShutdown then
      match waitForInstanceState env fuel instanceId (.str "stopped") {} w1 with
      | none => none
      | some (.resolved _, w2) => some (.resolved data, w2)
      | some (.rejected _, w2) => some (.pending, w2)
      | some (.pending, w2) => some (.pending, w2)
    else some (.resolved data, w1)

/-- `deleteInstance(instanceId)` of the aws adapter (lines 299-312). -/
def deleteInstance (env : AwsAdapter) (instanceId : JsVal) (w : World) :
    Completion JsVal × World :=
  let w1 : World := w.record (.ec2TerminateInstances instanceId)
  let logged : Except JsError World :=
    match env.terminateInstances.1 with
    | some _ => logCall env.logger "error" w1
    | none => .ok w1
  match logged with
  | .error _ => (.pending, w1)
  | .ok w2 =>
    match logCall env.logger "info" w2 with
    | .error _ => (.pending, w2)
    | .ok w3 => (.resolved env.terminateInstances.2, w3)

/-- The events of `n` instance checks that each found the instance in another
state than the awaited one. -/
def instanceWaitEvents (instanceId : JsVal) : Nat → List Event
  | 0 => []
  | n + 1 =>
    [.describeInstance instanceId, .log "debug", .sleep 5] ++ instanceWaitEvents instanceId n

/-! ## `src/gcloud/index.js` -/

/-- What `vm.delete` does with its callback: it reports an error, or it hands
over an operation that later emits `error` or `complete`. -/
inductive VmDeleteOutcome where
  | failed (err : JsError)
  | operationError (operationErr : JsError)
  | operationComplete
  deriving DecidableEq, Repr

/-- The module state of the gcloud adapter that `deleteWorker` reads, and the
scripted behaviour of `vm.delete`. -/
structure GcloudEnv where
  logger : Bool
  zoneName : JsVal
  vmDelete : VmDeleteOutcome

/-- `deleteWorker({ zone, instanceId })` (lines 142-164). -/
def Gcloud.deleteWorker (env : GcloudEnv) (zoneName vmName : JsVal) (w : World) :
    Completion JsVal × World :=
  let w1 : World := w.record (.vmDelete zoneName vmName)
  match env.vmDelete with
  | .failed err => (.rejected err, w1)
  | .operationError operationErr =>
    match logCall env.logger "error" w1 with
    | .error _ => (.pending, w1)
    | .ok w2 => (.rejected operationErr, w2)
  | .operationComplete =>
    match logCall env.logger "info" w1 with
    | .error _ => (.pending, w1)
    | .ok w2 => (.resolved .undefined, w2)

/-- The export `deleteInstance: instanceId => deleteWorker({ zone: zoneName,
instanceId })` (lines 239-243). -/
def Gcloud.deleteInstance (env : GcloudEnv) (instanceId : JsVal) (w : World) :
    Completion JsVal × World :=
  Gcloud.deleteWorker env env.zoneName instanceId w

/-! ## `src/docker/index.js` -/

/-- The answer of `container.inspect()`. -/
structure InspectResult where
  Id : JsVal
  deriving DecidableEq, Repr

/-- The scripted behaviour of the docker daemon: what `container.inspect()`
settles with (the answer may be null). -/
structure DockerEnv where
  inspect : Except JsError (Option InspectResult)

/-- `getContainer(docker, instanceId)` (lines 35-41): the container handle
when `inspect` answers with that very id, `undefined` (here `none`)
otherwise. -/
def Docker.getContainer (env : DockerEnv) (instanceId : JsVal) (w : World) :
    Except JsError (Option JsVal) × World :=
  let w1 : World := w.record (.inspect instanceId)
  match env.inspect with
  | .error e => (.error e, w1)
  | .ok none => (.ok none, w1)
  | .ok (some result) =>
    if result.Id = instanceId then (.ok (some instanceId), w1) else (.ok none, w1)

/-- `deleteInstance(instanceId)` of the docker adapter (lines 81-88);
`container.kill()` is not awaited. -/
def Docker.deleteInstance (env : DockerEnv) (instanceId : JsVal) (w : World) :
    Completion JsVal × World :=
  match Docker.getContainer env instanceId w with
  | (.error e, w1) => (.rejected e, w1)
  | (.ok (some container), w1) => (.resolved .undefined, w1.record (.kill container))
  | (.ok none, w1) => (.resolved .undefined, w1.record .consoleError)

/-! ## `src/factory.js` and the adapters' export tables -/

/-- The three adapter modules. -/
inductive Adapter where
  | aws
  | docker
  | gcloud
  deriving DecidableEq, Repr

/-- `create(cloudProviderId)` of `src/factory.js` (lines 5-17); `none` is the
`null` of the default case. -/
def create (cloudProviderId : String) : Option Adapter :=
  if cloudProviderId = "aws" then some .aws
  else if cloudProviderId = "docker" then some .docker
  else if cloudProviderId = "gcloud" then some .gcloud
  else none

/-- The keys of each adapter's `module.exports`: `src/aws/index.js` lines
322-337, `src/docker/index.js` lines 43-97, `src/gcloud/index.js` lines
224-262. -/
def moduleExports : Adapter → List String
  | .aws =>
    ["init", "createInstance", "startInstance", "stopInstance", "rebootInstance",
     "tagInstance", "deleteInstance", "createImage", "describeInstance", "describeImage",
     "resetUserData", "importKeyPairRequest", "getPublicInstanceAddress", "getConsoleOutput"]
  | .docker =>
    ["init", "createInstance", "createImage", "deleteInstance", "getPublicInstanceAddress",
     "describeInstance"]
  | .gcloud =>
    ["init", "createInstance", "stopInstance", "deleteInstance", "createImage",
     "describeInstance", "getPublicInstanceAddress", "describeImage"]

/-- The provider operations that `createInstanceAndImage` invokes (lines 16,
22, 38, 40, 43). -/
def workflowOperations : List String :=
  ["createInstance", "getPublicInstanceAddress", "stopInstance", "createImage",
   "deleteInstance"]

/-- A property of an adapter object: defined when the module exports that
key, `undefined` otherwise. -/
def exported {α : Type} (a : Adapter) (key : String) (op : Option α) : Option α :=
  if key ∈ moduleExports a then op else none

/-- The provider object the workflow sees for adapter `a`, given how the
backend behind it behaves: only the exported operations are defined. -/
def adapterProvider (a : Adapter) (backend : Provider) : Provider :=
  { createInstance := exported a "createInstance" backend.createInstance,
    getPublicInstanceAddress :=
      exported a "getPublicInstanceAddress" backend.getPublicInstanceAddress,
    stopInstance := exported a "stopInstance" backend.stopInstance,
    createImage := exported a "createImage" backend.createImage,
    deleteInstance := exported a "deleteInstance" backend.deleteInstance }

/-! ## Sample collaborators -/

/-- A stub provider in the manner of the happy-path scenario: the address
arrives on the third poll and the image is `img-1`. -/
def stubProvider : Provider :=
  { createInstance := some (.ok (.str "i-1")),
    getPublicInstanceAddress :=
      some (fun n => if n < 2 then .ok .null else .ok (.str "10.0.0.5")),
    stopInstance := some (.ok .undefined),
    createImage := some (.ok (.str "img-1")),
    deleteInstance := some (.ok .undefined) }

/-- A stub provider that never has an address. -/
def noAddressProvider : Provider :=
  { stubProvider with getPublicInstanceAddress := some (fun _ => .ok .undefined) }

/-- The error a stub may reject with. -/
def quotaError : JsError :=
  { name := "Error", message := "quota exceeded", type := .undefined, code := .undefined }

/-- A stub provider whose second address poll rejects. -/
def failingAddressProvider : Provider :=
  { stubProvider with
    getPublicInstanceAddress := some (fun n => if n < 1 then .ok .null else .error quotaError) }

/-- The error `node-fetch` throws when the connection is refused. -/
def refusedError : JsError :=
  { name := "FetchError", message := "connect ECONNREFUSED",
    type := .str "system", code := .str "ECONNREFUSED" }

/-- The error `node-fetch` throws when the request times out. -/
def timeoutError : JsError :=
  { name := "FetchError", message := "network timeout",
    type := .str "request-timeout", code := .undefined }

/-- The network of the happy-path scenario: the second probe answers
`ready`. -/
def stubEnv : Env :=
  { provider := stubProvider,
    fetch := fun n => if n < 1 then .error refusedError else .body "ready" }

/-- A network that refuses twice and then answers. -/
def twiceRefusedEnv : Env :=
  { provider := stubProvider,
    fetch := fun n => if n < 2 then .error refusedError else .body "ready" }

/-- A network on which every probe times out. -/
def silentEnv : Env :=
  { provider := stubProvider, fetch := fun _ => .error timeoutError }

/-- A network whose first answer has an empty body. -/
def emptyBodyEnv : Env :=
  { provider := stubProvider, fetch := fun _ => .body "" }

/-- Valid workflow arguments. -/
def stubArgs : BakeArgs :=
  { image := .str "ami-1", imageName := .str "baked", startupScript := .str "echo ok",
    keyName := .undefined, machineType := .undefined, diskSize := .undefined, logger := true }

/-- Workflow arguments without a startup script. -/
def noScriptArgs : BakeArgs :=
  { stubArgs with startupScript := .undefined }

/-- The answers of a backend on which image `ami-9` is pending for two
checks and available from the third on. -/
def stubImageResults (n : Nat) : Option ImageList :=
  if n < 2 then some { Images := some [{ ImageId := .str "ami-9", State := .str "pending" }] }
  else some { Images := some [{ ImageId := .str "ami-9", State := .str "available" }] }

/-- An initialised aws adapter over that backend. -/
def stubAws : AwsEnv :=
  { logger := true, describeImages := fun n => .ok (stubImageResults n) }

/-- A description of one instance in the given state. -/
def describedIn (state : String) : Option InstanceDescription :=
  some { Reservations := some [{ Instances := some [{ State := some { Name := .str state } }] }] }

/-- An initialised aws adapter whose instance stays in state `stopping`. -/
def stuckAws : AwsAdapter :=
  { toAwsEnv := stubAws,
    describeInstances := fun _ => .ok (describedIn "stopping"),
    stopInstances := .ok (.obj "StoppingInstances"),
    terminateInstances := (none, .obj "TerminatingInstances") }

/-- An initialised aws adapter whose backend answers every description with
the given value. -/
def awsDescribing (description : Option InstanceDescription) : AwsAdapter :=
  { stuckAws with describeInstances := fun _ => .ok description }

/-- The error a backend reports for an instance that does not exist. -/
def notFoundError : JsError :=
  { name := "Error", message := "not found", type := .undefined, code := .num 404 }

/-- An initialised aws adapter whose backend no longer knows the instance. -/
def goneAws : AwsAdapter :=
  { stuckAws with terminateInstances := (some notFoundError, .null) }

/-- An initialised gcloud adapter whose backend no longer knows the VM. -/
def goneGcloud : GcloudEnv :=
  { logger := true, zoneName := .str "us-central1-f", vmDelete := .failed notFoundError }

/-- A docker daemon whose `inspect` answers with another container. -/
def otherContainerDocker : DockerEnv :=
  { inspect := .ok (some { Id := .str "c-2" }) }

/-- The backend behind the docker adapter in a bake: the container is
created, its address is `127.0.0.1` (line 90), commit and kill succeed. -/
def dockerBackend : Provider :=
  { createInstance := some (.ok (.str "c-1")),
    getPublicInstanceAddress := some (fun _ => .ok (.str "127.0.0.1")),
    stopInstance := some (.ok .undefined),
    createImage := some (.ok (.str "img-1")),
    deleteInstance := some (.ok .undefined) }

/-- A network whose first probe answers `ready`. -/
def readyEnv : Env :=
  { provider := adapterProvider .docker dockerBackend, fetch := fun _ => .body "ready" }

/-- An initialised aws adapter whose backend knows no image: every answer of
`describeImages` is null. -/
def absentImageAws : AwsEnv :=
  { logger := true, describeImages := fun _ => .ok none }

/-! ## Helper lemmas: the address loop -/

/-- After `n` polls that found no address the loop is where it would be had
it started with `n` fewer iterations in the world those polls produced. -/
theorem addressLoop_skip (p : Provider) (instanceId : JsVal)
    (script : Nat → Except JsError JsVal) (hp : p.getPublicInstanceAddress = some script)
    (left : Nat) :
    ∀ (n : Nat) (url : JsVal) (w : World), truthy url = false →
      (∀ j, j < n → ∃ v, script (w.addressPolls + j) = .ok v ∧ truthy v = false) →
      ∃ last, truthy last = false ∧
        addressLoop p true instanceId (n + left) url w =
          addressLoop p true instanceId left last
            { w with trace := w.trace ++ pollEvents instanceId n,
                     addressPolls := w.addressPolls + n } := by
  intro n
  induction n with
  | zero =>
    intro url w hurl _
    exact ⟨url, hurl, by simp [pollEvents]⟩
  | succ n ih =>
    intro url w hurl h
    obtain ⟨v, hv, hvf⟩ := h 0 (Nat.succ_pos n)
    have hshift : ∀ j, j < n →
        ∃ v, script ((sleep 5 ({ w.record (.getPublicInstanceAddress instanceId) with
            addressPolls := w.addressPolls + 1 }.record (.log "info"))).addressPolls + j) = .ok v ∧
          truthy v = false := by
      intro j hj
      obtain ⟨u, hu, huf⟩ := h (j + 1) (Nat.succ_lt_succ hj)
      refine ⟨u, ?_, huf⟩
      have : w.addressPolls + 1 + j = w.addressPolls + (j + 1) := by omega
      simpa [sleep, World.record, this] using hu
    obtain ⟨last, hlast, heq⟩ := ih v _ hvf hshift
    refine ⟨last, hlast, ?_⟩
    have hn : n + 1 + left = (n + left) + 1 := by omega
    rw [hn, addressLoop]
    simp only [Nat.add_zero] at hv
    simp only [callGetPublicInstanceAddress, hp, hv, hvf, logCall, if_true]
    simp only [Bool.false_eq_true, if_false]
    rw [heq]
    congr 1
    simp [sleep, World.record, pollEvents, Nat.add_assoc, Nat.add_comm 1 n]

/-- Poll `k` (counting from zero) is the first to yield an address and lies
within the iterations left: the loop ends there with that address. -/
theorem addressLoop_found (p : Provider) (instanceId : JsVal)
    (script : Nat → Except JsError JsVal) (hp : p.getPublicInstanceAddress = some script)
    (k left : Nat) (url : JsVal) (w : World) (hurl : truthy url = false)
    (hnone : ∀ j, j < k → ∃ v, script (w.addressPolls + j) = .ok v ∧ truthy v = false)
    (address : JsVal) (hfound : script (w.addressPolls + k) = .ok address)
    (haddress : truthy address = true) :
    addressLoop p true instanceId (k + (left + 1)) url w =
      (.ok address,
        { w with trace := w.trace ++ pollEvents instanceId k ++
                   [.getPublicInstanceAddress instanceId],
                 addressPolls := w.addressPolls + k + 1 }) := by
  obtain ⟨last, _, heq⟩ := addressLoop_skip p instanceId script hp (left + 1) k url w hurl hnone
  rw [heq, addressLoop]
  simp [callGetPublicInstanceAddress, hp, hfound, haddress, World.record]

/-- Poll `k` (counting from zero) is the first not to answer "no address", it
rejects with `e`, and it lies within the iterations left: the loop ends there
with `e`. -/
theorem addressLoop_error (p : Provider) (instanceId : JsVal)
    (script : Nat → Except JsError JsVal) (hp : p.getPublicInstanceAddress = some script)
    (k left : Nat) (url : JsVal) (w : World) (hurl : truthy url = false)
    (hnone : ∀ j, j < k → ∃ v, script (w.addressPolls + j) = .ok v ∧ truthy v = false)
    (e : JsError) (hfail : script (w.addressPolls + k) = .error e) :
    addressLoop p true instanceId (k + (left + 1)) url w =
      (.error e,
        { w with trace := w.trace ++ pollEvents instanceId k ++
                   [.getPublicInstanceAddress instanceId],
                 addressPolls := w.addressPolls + k + 1 }) := by
  obtain ⟨last, _, heq⟩ := addressLoop_skip p instanceId script hp (left + 1) k url w hurl hnone
  rw [heq, addressLoop]
  simp [callGetPublicInstanceAddress, hp, hfail, World.record]

/-- None of the `n` polls of the budget yields an address: the loop ends with
a falsy `publicUrl` after exactly `n` polls and `n` sleeps. -/
theorem addressLoop_exhausted (p : Provider) (instanceId : JsVal)
    (script : Nat → Except JsError JsVal) (hp : p.getPublicInstanceAddress = some script)
    (n : Nat) (url : JsVal) (w : World) (hurl : truthy url = false)
    (hnone : ∀ j, j < n → ∃ v, script (w.addressPolls + j) = .ok v ∧ truthy v = false) :
    ∃ last, truthy last = false ∧
      addressLoop p true instanceId n url w =
        (.ok last,
          { w with trace := w.trace ++ pollEvents instanceId n,
                   addressPolls := w.addressPolls + n }) := by
  obtain ⟨last, hlast, heq⟩ := addressLoop_skip p instanceId script hp 0 n url w hurl hnone
  exact ⟨last, hlast, by rw [Nat.add_zero] at heq; rw [heq, addressLoop]⟩

/-! ## Helper lemmas: the connectivity loop -/

/-- One iteration whose probe threw: the loop goes on with one interval more
on the clock, whatever the error was. -/
theorem connectivityLoop_fail_step (env : Env) (publicUrl : JsVal) (T I fuel acc : Nat)
    (w : World) (e : JsError) (he : env.fetch w.probes = .error e) (hacc : acc < T) :
    connectivityLoop env true publicUrl T I (fuel + 1) acc w =
      connectivityLoop env true publicUrl T I fuel (acc + I)
        { w with trace := w.trace ++ failedProbeEvents ("http://" ++ toStr publicUrl) I e,
                 probes := w.probes + 1 } := by
  rw [connectivityLoop]
  by_cases h1 : e.type = .str "request-timeout"
  · simp [isConditionMet, he, hacc, h1, failedProbeEvents, logCall, World.record]
  · by_cases h2 : e.code = .str "ECONNREFUSED"
    · simp [isConditionMet, he, hacc, h1, h2, failedProbeEvents, logCall, World.record, sleep]
    · simp [isConditionMet, he, hacc, h1, h2, failedProbeEvents, logCall, World.record]

/-- After `n` iterations whose probes all threw, the loop is where it would
be had it started `n` intervals later in the world those probes produced. -/
theorem connectivityLoop_skip (env : Env) (publicUrl : JsVal) (T I fuel : Nat) :
    ∀ (n acc : Nat) (w : World),
      (∀ j, j < n → ∃ e, env.fetch (w.probes + j) = .error e) →
      (∀ j, j < n → acc + j * I < T) →
      connectivityLoop env true publicUrl T I (n + fuel) acc w =
        connectivityLoop env true publicUrl T I fuel (acc + n * I)
          { w with trace := w.trace ++
                     failedProbesEvents env.fetch ("http://" ++ toStr publicUrl) I w.probes n,
                   probes := w.probes + n } := by
  intro n
  induction n with
  | zero =>
    intro acc w _ _
    simp [failedProbesEvents]
  | succ n ih =>
    intro acc w h hT
    obtain ⟨e, he⟩ := h 0 (Nat.succ_pos n)
    simp only [Nat.add_zero] at he
    have hacc : acc < T := by simpa using hT 0 (Nat.succ_pos n)
    have hn : n + 1 + fuel = (n + fuel) + 1 := by omega
    rw [hn, connectivityLoop_fail_step env publicUrl T I (n + fuel) acc w e he hacc]
    rw [ih]
    · congr 1
      · rw [Nat.succ_mul]; omega
      · simp [failedProbesEvents, he, Nat.add_assoc, Nat.add_comm 1 n]
    · intro j hj
      obtain ⟨u, hu⟩ := h (j + 1) (Nat.succ_lt_succ hj)
      exact ⟨u, by simpa [Nat.add_assoc, Nat.add_comm 1 j] using hu⟩
    · intro j hj
      have := hT (j + 1) (Nat.succ_lt_succ hj)
      rw [Nat.succ_mul] at this
      omega

/-- The iteration whose probe returned a body resolves with that body. -/
theorem connectivityLoop_body (env : Env) (publicUrl : JsVal) (T I fuel acc : Nat)
    (w : World) (text : String) (hb : env.fetch w.probes = .body text) (hacc : acc < T) :
    connectivityLoop env true publicUrl T I (fuel + 1) acc w =
      some (.resolved (.str text),
        { w with trace := w.trace ++ [.fetch ("http://" ++ toStr publicUrl) (I * 1000)],
                 probes := w.probes + 1 }) := by
  rw [connectivityLoop]
  simp [isConditionMet, hb, hacc, World.record]

/-- Once the accumulated time has reached the timeout the loop resolves with
`null` and does nothing else. -/
theorem connectivityLoop_done (env : Env) (logger : Bool) (publicUrl : JsVal)
    (T I fuel acc : Nat) (w : World) (hacc : T ≤ acc) :
    connectivityLoop env logger publicUrl T I fuel acc w = some (.resolved .null, w) := by
  cases fuel <;> simp [connectivityLoop, Nat.not_lt.mpr hacc]

/-- The first `n` probes all threw and the `n`-th (counting from zero)
returned a body within the budget: the loop resolves with that body after
exactly `n + 1` probes. -/
theorem connectivityLoop_found (env : Env) (publicUrl : JsVal) (T I fuel n acc : Nat)
    (w : World) (text : String)
    (hfail : ∀ j, j < n → ∃ e, env.fetch (w.probes + j) = .error e)
    (hbody : env.fetch (w.probes + n) = .body text)
    (hT : acc + n * I < T) (hfuel : n < fuel) :
    connectivityLoop env true publicUrl T I fuel acc w =
      some (.resolved (.str text),
        { w with trace := w.trace ++
                   failedProbesEvents env.fetch ("http://" ++ toStr publicUrl) I w.probes n ++
                   [.fetch ("http://" ++ toStr publicUrl) (I * 1000)],
                 probes := w.probes + n + 1 }) := by
  obtain ⟨r, rfl⟩ : ∃ r, fuel = n + (r + 1) := ⟨fuel - n - 1, by omega⟩
  have hlt : ∀ j, j < n → acc + j * I < T := by
    intro j hj
    have : j * I ≤ n * I := Nat.mul_le_mul_right I (Nat.le_of_lt hj)
    omega
  rw [connectivityLoop_skip env publicUrl T I (r + 1) n acc w hfail hlt]
  rw [connectivityLoop_body env publicUrl T I r (acc + n * I) _ text hbody hT]

/-- All `n` probes of the budget threw: the loop resolves with `null` after
exactly `n` probes. -/
theorem connectivityLoop_exhausted (env : Env) (publicUrl : JsVal) (T I fuel n acc : Nat)
    (w : World)
    (hfail : ∀ j, j < n → ∃ e, env.fetch (w.probes + j) = .error e)
    (hlt : ∀ j, j < n → acc + j * I < T)
    (hT : T ≤ acc + n * I) (hfuel : n ≤ fuel) :
    connectivityLoop env true publicUrl T I fuel acc w =
      some (.resolved .null,
        { w with trace := w.trace ++
                   failedProbesEvents env.fetch ("http://" ++ toStr publicUrl) I w.probes n,
                 probes := w.probes + n }) := by
  obtain ⟨r, rfl⟩ : ∃ r, fuel = n + r := ⟨fuel - n, by omega⟩
  rw [connectivityLoop_skip env publicUrl T I r n acc w hfail hlt]
  exact connectivityLoop_done env true publicUrl T I r (acc + n * I) _ hT

/-! ## Helper lemmas: traces -/

theorem providerCalls_append (s t : List Event) :
    providerCalls (s ++ t) = providerCalls s ++ providerCalls t := by
  simp [providerCalls]

theorem providerCalls_pollEvents (instanceId : JsVal) (n : Nat) :
    providerCalls (pollEvents instanceId n) =
      List.replicate n (.getPublicInstanceAddress instanceId) := by
  induction n with
  | zero => rfl
  | succ n ih =>
    rw [pollEvents, providerCalls_append, ih]
    simp [providerCalls, List.replicate_succ]

theorem providerCalls_failedProbeEvents (url : String) (I : Nat) (e : JsError) :
    providerCalls (failedProbeEvents url I e) = [] := by
  unfold failedProbeEvents
  split_ifs <;> simp [providerCalls]

theorem providerCalls_failedProbesEvents (fetch : Nat → FetchOutcome) (url : String) (I : Nat) :
    ∀ (n start : Nat), providerCalls (failedProbesEvents fetch url I start n) = [] := by
  intro n
  induction n with
  | zero => intro start; rfl
  | succ n ih =>
    intro start
    rw [failedProbesEvents, providerCalls_append, ih]
    cases fetch start with
    | body text => simp [providerCalls]
    | error e => simp [providerCalls_failedProbeEvents]

theorem sleptTotal_append (s t : List Event) :
    sleptTotal (s ++ t) = sleptTotal s + sleptTotal t := by
  induction s with
  | nil => simp [sleptTotal]
  | cons e s ih =>
    cases e <;> simp [sleptTotal, ih, Nat.add_assoc]

theorem sleptTotal_failedProbeEvents (url : String) (I : Nat) (e : JsError) :
    sleptTotal (failedProbeEvents url I e) = if isRefusal e then I else 0 := by
  unfold failedProbeEvents isRefusal
  by_cases h1 : e.type = .str "request-timeout"
  · simp [h1, sleptTotal]
  · by_cases h2 : e.code = .str "ECONNREFUSED"
    · simp [h1, h2, sleptTotal]
    · simp [h1, h2, sleptTotal]

theorem sleptTotal_failedProbesEvents (fetch : Nat → FetchOutcome) (url : String) (I : Nat) :
    ∀ (n start : Nat),
      sleptTotal (failedProbesEvents fetch url I start n) = I * refusalCount fetch start n := by
  intro n
  induction n with
  | zero => intro start; simp [failedProbesEvents, refusalCount, sleptTotal]
  | succ n ih =>
    intro start
    rw [failedProbesEvents, sleptTotal_append, ih, refusalCount, Nat.mul_add]
    cases fetch start with
    | body text => simp [sleptTotal]
    | error e =>
      simp only [sleptTotal_failedProbeEvents]
      by_cases h : isRefusal e = true <;> simp [h]

theorem probeCount_append (s t : List Event) :
    probeCount (s ++ t) = probeCount s + probeCount t := by
  simp [probeCount]

theorem probeCount_failedProbeEvents (url : String) (I : Nat) (e : JsError) :
    probeCount (failedProbeEvents url I e) = 1 := by
  unfold failedProbeEvents
  split_ifs <;> simp [probeCount]

theorem probeCount_failedProbesEvents (fetch : Nat → FetchOutcome) (url : String) (I : Nat) :
    ∀ (n start : Nat), (∀ j, j < n → ∃ e, fetch (start + j) = .error e) →
      probeCount (failedProbesEvents fetch url I start n) = n := by
  intro n
  induction n with
  | zero => intro start _; rfl
  | succ n ih =>
    intro start h
    obtain ⟨e, he⟩ := h 0 (Nat.succ_pos n)
    simp only [Nat.add_zero] at he
    have hrest : ∀ j, j < n → ∃ e, fetch (start + 1 + j) = .error e := by
      intro j hj
      obtain ⟨u, hu⟩ := h (j + 1) (Nat.succ_lt_succ hj)
      exact ⟨u, by simpa [Nat.add_assoc, Nat.add_comm 1 j] using hu⟩
    rw [failedProbesEvents, probeCount_append, ih (start + 1) hrest, he]
    simp only [probeCount_failedProbeEvents]
    omega

/-! ## Helper lemmas: the workflow up to the readiness wait -/

/-- With valid arguments, a created instance and an address on poll `k` of
the ten, `createInstanceAndImage` arrives at the readiness wait in the world
that holds the creation, `k` fruitless polls and the successful one. -/
theorem createInstanceAndImage_reaches_address (env : Env) (fuel : Nat) (args : BakeArgs)
    (instanceId address : JsVal) (script : Nat → Except JsError JsVal) (k : Nat)
    (hstart : truthy args.startupScript = true) (hname : truthy args.imageName = true)
    (hlog : args.logger = true)
    (hcreate : env.provider.createInstance = some (.ok instanceId))
    (haddr : env.provider.getPublicInstanceAddress = some script)
    (hk : k < 10)
    (hnone : ∀ j, j < k → ∃ v, script j = .ok v ∧ truthy v = false)
    (hfound : script k = .ok address) (haddress : truthy address = true) :
    createInstanceAndImage env fuel args World.init =
      bakeFromAddress env fuel args instanceId address
        { trace := [.createInstance (createSpecOf args), .log "info"] ++
            pollEvents instanceId k ++ [.getPublicInstanceAddress instanceId],
          addressPolls := k + 1, probes := 0, imageChecks := 0 } := by
  obtain ⟨left, hleft⟩ : ∃ left, 10 = k + (left + 1) := ⟨9 - k, by omega⟩
  have hloop := addressLoop_found env.provider instanceId script haddr k left .null
    { trace := [.createInstance (createSpecOf args), .log "info"],
      addressPolls := 0, probes := 0, imageChecks := 0 } rfl
    (by simpa using hnone) address (by simpa using hfound) haddress
  rw [← hleft] at hloop
  simp only [createInstanceAndImage, hstart, hname, hlog, hcreate, callOp, logCall,
    bakeInstance, World.init, World.record]
  simp only [List.nil_append, List.singleton_append, Bool.true_eq_false, if_false, if_true]
  simp only [List.cons_append, List.nil_append, List.append_assoc] at hloop ⊢
  rw [hloop]
  simp [haddress]

/-- The readiness wait of the workflow (defaults: timeout 3000, interval 10)
when probe `m` is the first to return a body: the workflow goes on to stop,
image and delete exactly when that body is truthy, and returns `null`
otherwise. -/
theorem bakeFromAddress_body (env : Env) (fuel : Nat) (args : BakeArgs)
    (instanceId address : JsVal) (w : World) (m : Nat) (text : String)
    (hlog : args.logger = true) (haddress : truthy address = true)
    (hfail : ∀ j, j < m → ∃ e, env.fetch (w.probes + j) = .error e)
    (hbody : env.fetch (w.probes + m) = .body text)
    (hm : m < 300) (hfuel : m < fuel) :
    bakeFromAddress env fuel args instanceId address w =
      if text = "" then
        some (.resolved .null,
          { w with trace := w.trace ++ [.log "info"] ++
                     failedProbesEvents env.fetch ("http://" ++ toStr address) 10 w.probes m ++
                     [.fetch ("http://" ++ toStr address) 10000],
                   probes := w.probes + m + 1 })
      else
        some (stopImageDelete env.provider args instanceId
          { w with trace := w.trace ++ [.log "info"] ++
                     failedProbesEvents env.fetch ("http://" ++ toStr address) 10 w.probes m ++
                     [.fetch ("http://" ++ toStr address) 10000],
                   probes := w.probes + m + 1 }) := by
  have hloop := connectivityLoop_found env address 3000 10 fuel m 0
    (w.record (.log "info")) text hfail hbody (by omega) hfuel
  simp only [bakeFromAddress, waitForConnectivity, haddress, hlog, logCall, if_true]
  simp only [Bool.true_eq_false, if_false]
  rw [hloop]
  by_cases ht : text = "" <;> simp [ht, truthy, World.record]

/-- The readiness wait of the workflow when all 300 probes of its budget
threw: the workflow returns `null` right there. -/
theorem bakeFromAddress_exhausted (env : Env) (fuel : Nat) (args : BakeArgs)
    (instanceId address : JsVal) (w : World)
    (hlog : args.logger = true) (haddress : truthy address = true)
    (hfail : ∀ j, j < 300 → ∃ e, env.fetch (w.probes + j) = .error e)
    (hfuel : 300 ≤ fuel) :
    bakeFromAddress env fuel args instanceId address w =
      some (.resolved .null,
        { w with trace := w.trace ++ [.log "info"] ++
                   failedProbesEvents env.fetch ("http://" ++ toStr address) 10 w.probes 300,
                 probes := w.probes + 300 }) := by
  have hloop := connectivityLoop_exhausted env address 3000 10 fuel 300 0
    (w.record (.log "info")) hfail (by intro j hj; omega) (by omega) hfuel
  simp only [bakeFromAddress, waitForConnectivity, haddress, hlog, logCall, if_true]
  simp only [Bool.true_eq_false, if_false]
  rw [hloop]
  simp [truthy, World.record]

/-- Stop, image and delete all succeed: the workflow resolves with the image
identifier after exactly these three provider calls. -/
theorem stopImageDelete_ok (p : Provider) (args : BakeArgs) (instanceId : JsVal) (w : World)
    (stopped imageId deleted : JsVal) (hlog : args.logger = true)
    (hstop : p.stopInstance = some (.ok stopped))
    (himage : p.createImage = some (.ok imageId))
    (hdelete : p.deleteInstance = some (.ok deleted)) :
    stopImageDelete p args instanceId w =
      (.resolved imageId,
        { w with trace := w.trace ++
            [.stopInstance instanceId true, .createImage instanceId args.imageName,
             .log "info", .deleteInstance instanceId] }) := by
  simp [stopImageDelete, callOp, logCall, hlog, hstop, himage, hdelete, World.record]

/-! ## Helper lemmas: the image wait loop -/

theorem imageCheckCount_append (s t : List Event) :
    imageCheckCount (s ++ t) = imageCheckCount s + imageCheckCount t := by
  simp [imageCheckCount]

theorem imageCheckCount_imageWaitEvents (imageId : JsVal) (n : Nat) :
    imageCheckCount (imageWaitEvents imageId n) = n := by
  induction n with
  | zero => rfl
  | succ n ih =>
    rw [imageWaitEvents, imageCheckCount_append, ih]
    simp [imageCheckCount]
    omega

/-- One iteration that found the image not ready: log, sleep 5, go on. -/
theorem imageStateLoop_wait_step (env : AwsEnv) (imageId state : JsVal) (T fuel t : Nat)
    (w : World) (d : Option ImageList) (hlog : env.logger = true)
    (hd : env.describeImages w.imageChecks = .ok d)
    (hnot : imageReady d imageId state = false) (ht : t < T) :
    imageStateLoop env imageId state T (fuel + 1) t w =
      imageStateLoop env imageId state T fuel (t + 5)
        { w with trace := w.trace ++ [.describeImage imageId, .log "debug", .sleep 5],
                 imageChecks := w.imageChecks + 1 } := by
  rw [imageStateLoop]
  simp [describeImage, hd, hnot, ht, hlog, logCall, sleep, World.record]

/-- After `n` iterations that each found the image not ready, the loop is
where it would be had it started `5 * n` seconds later. -/
theorem imageStateLoop_skip (env : AwsEnv) (imageId state : JsVal) (T fuel : Nat)
    (hlog : env.logger = true) :
    ∀ (n t : Nat) (w : World),
      (∀ j, j < n → ∃ d, env.describeImages (w.imageChecks + j) = .ok d ∧
        imageReady d imageId state = false) →
      (∀ j, j < n → t + j * 5 < T) →
      imageStateLoop env imageId state T (n + fuel) t w =
        imageStateLoop env imageId state T fuel (t + n * 5)
          { w with trace := w.trace ++ imageWaitEvents imageId n,
                   imageChecks := w.imageChecks + n } := by
  intro n
  induction n with
  | zero =>
    intro t w _ _
    simp [imageWaitEvents]
  | succ n ih =>
    intro t w h hT
    obtain ⟨d, hd, hnot⟩ := h 0 (Nat.succ_pos n)
    simp only [Nat.add_zero] at hd
    have ht : t < T := by simpa using hT 0 (Nat.succ_pos n)
    have hn : n + 1 + fuel = (n + fuel) + 1 := by omega
    rw [hn, imageStateLoop_wait_step env imageId state T (n + fuel) t w d hlog hd hnot ht]
    rw [ih]
    · congr 1
      · omega
      · simp [imageWaitEvents, Nat.add_assoc, Nat.add_comm 1 n]
    · intro j hj
      obtain ⟨u, hu, hun⟩ := h (j + 1) (Nat.succ_lt_succ hj)
      exact ⟨u, by simpa [Nat.add_assoc, Nat.add_comm 1 j] using hu, hun⟩
    · intro j hj
      have := hT (j + 1) (Nat.succ_lt_succ hj)
      omega

/-- The iteration that finds the image ready resolves with it. -/
theorem imageStateLoop_ready (env : AwsEnv) (imageId state : JsVal) (T fuel t : Nat)
    (w : World) (d : Option ImageList)
    (hd : env.describeImages w.imageChecks = .ok d)
    (hready : imageReady d imageId state = true) (ht : t < T) :
    imageStateLoop env imageId state T (fuel + 1) t w =
      some (.resolved (firstImage d),
        { w with trace := w.trace ++ [.describeImage imageId],
                 imageChecks := w.imageChecks + 1 }) := by
  rw [imageStateLoop]
  simp [describeImage, hd, hready, ht, World.record]

/-- Once `t` has reached the timeout the loop rejects with the timeout error
and does nothing else. -/
theorem imageStateLoop_done (env : AwsEnv) (imageId state : JsVal) (T fuel t : Nat)
    (w : World) (ht : T ≤ t) :
    imageStateLoop env imageId state T fuel t w =
      some (.rejected (imageTimeoutError imageId state), w) := by
  cases fuel <;> simp [imageStateLoop, Nat.not_lt.mpr ht]

/-! ## Helper lemmas: the readiness wait on its own -/

/-- Attempt `m + 1` lies within `ceil(T / I)` attempts exactly when `m`
intervals have not yet used up the timeout. -/
theorem succ_le_ceilDiv_iff (T I m : Nat) (hI : 0 < I) :
    m + 1 ≤ ceilDiv T I ↔ m * I < T := by
  unfold ceilDiv
  rw [Nat.le_div_iff_mul_le hI, Nat.succ_mul]
  omega

/-- The run of `waitForConnectivity` from the initial world when probe `m`
is the first to return a body and comes before the timeout. -/
theorem waitForConnectivity_found (env : Env) (fuel : Nat) (address : JsVal)
    (opts : ConnectivityOpts) (m : Nat) (text : String)
    (haddress : truthy address = true) (hlog : opts.logger = true)
    (hfail : ∀ j, j < m → ∃ e, env.fetch j = .error e)
    (hbody : env.fetch m = .body text)
    (hm : m * opts.pollFrequencyInSec < opts.timeoutInSec) (hfuel : m < fuel) :
    waitForConnectivity env fuel address opts World.init =
      some (.resolved (.str text),
        { trace := [.log "info"] ++
            failedProbesEvents env.fetch ("http://" ++ toStr address)
              opts.pollFrequencyInSec 0 m ++
            [.fetch ("http://" ++ toStr address) (opts.pollFrequencyInSec * 1000)],
          addressPolls := 0, probes := m + 1, imageChecks := 0 }) := by
  have hloop := connectivityLoop_found env address opts.timeoutInSec opts.pollFrequencyInSec
    fuel m 0 (World.init.record (.log "info")) text
    (by simpa [World.init, World.record] using hfail)
    (by simpa [World.init, World.record] using hbody) (by omega) hfuel
  simp only [waitForConnectivity, haddress, hlog, logCall, if_true]
  simp only [Bool.true_eq_false, if_false]
  rw [hloop]
  simp [World.init, World.record]

theorem refusalCount_all (fetch : Nat → FetchOutcome) :
    ∀ (n start : Nat),
      (∀ j, j < n → ∃ e, fetch (start + j) = .error e ∧ isRefusal e = true) →
      refusalCount fetch start n = n := by
  intro n
  induction n with
  | zero => intro start _; rfl
  | succ n ih =>
    intro start h
    obtain ⟨e, he, hr⟩ := h 0 (Nat.succ_pos n)
    simp only [Nat.add_zero] at he
    have hrest : ∀ j, j < n → ∃ e, fetch (start + 1 + j) = .error e ∧ isRefusal e = true := by
      intro j hj
      obtain ⟨u, hu, hur⟩ := h (j + 1) (Nat.succ_lt_succ hj)
      exact ⟨u, by simpa [Nat.add_assoc, Nat.add_comm 1 j] using hu, hur⟩
    rw [refusalCount, ih (start + 1) hrest, he]
    simp only [hr, if_true]
    omega

/-! ## The bake workflow: validation (C1) -/


/-- C1: when `startupScript` or `imageName` is missing or empty (falsy),
`createInstanceAndImage` rejects with an `Error` and the world is left
untouched: from the initial world the final trace is empty, so no provider
operation was invoked. -/
theorem createInstanceAndImage_rejects_invalid_input (env : Env) (fuel : Nat) (args : BakeArgs)
    (h : truthy args.startupScript = false ∨ truthy args.imageName = false) :
    ∃ e, createInstanceAndImage env fuel args World.init = some (.rejected e, World.init) ∧
      e.name = "Error" ∧ providerCalls World.init.trace = [] := by
  by_cases hs : truthy args.startupScript = false
  · refine ⟨mkError
      "Startup script is missing. The action will never return without HTTP signaling",
      ?_, rfl, rfl⟩
    simp [createInstanceAndImage, hs]
  · have hn : truthy args.imageName = false := by
      rcases h with h | h
      · exact absurd h hs
      · exact h
    refine ⟨mkError "Target image name is missing.", ?_, rfl, rfl⟩
    simp [createInstanceAndImage, hs, hn]

/-- Arguments without a startup script are rejected before any call. -/
theorem createInstanceAndImage_rejects_invalid_input_witness :
    ∃ e, createInstanceAndImage stubEnv 300 noScriptArgs World.init =
        some (.rejected e, World.init) ∧
      e.name = "Error" ∧ providerCalls World.init.trace = [] :=
  createInstanceAndImage_rejects_invalid_input stubEnv 300 noScriptArgs (Or.inl rfl)

/-! ## The bake workflow: happy path (C2) -/

/-- C2: with valid arguments, a provider whose `createInstance` succeeds, whose
`getPublicInstanceAddress` yields its first non-empty address on poll `k`
(counting from zero, `k < 10`), a readiness probe whose first body is
non-empty and comes within the budget of 300 probes, and succeeding
`stopInstance`, `createImage` and `deleteInstance`: `createInstanceAndImage`
resolves with the identifier that `createImage` returned, and the provider
calls of the run are, in this order, one `createInstance`, `k + 1` address
polls, `stopInstance` with `awaitShutdown = true`, `createImage`, and one
`deleteInstance` on the created instance. -/
theorem createInstanceAndImage_happy_path (env : Env) (fuel : Nat) (args : BakeArgs)
    (instanceId address stopped imageId deleted : JsVal)
    (script : Nat → Except JsError JsVal) (k m : Nat) (text : String)
    (hstart : truthy args.startupScript = true) (hname : truthy args.imageName = true)
    (hlog : args.logger = true)
    (hcreate : env.provider.createInstance = some (.ok instanceId))
    (haddr : env.provider.getPublicInstanceAddress = some script)
    (hk : k < 10)
    (hnone : ∀ j, j < k → ∃ v, script j = .ok v ∧ truthy v = false)
    (hfound : script k = .ok address) (haddress : truthy address = true)
    (hm : m < 300)
    (hfail : ∀ j, j < m → ∃ e, env.fetch j = .error e)
    (hbody : env.fetch m = .body text) (htext : text ≠ "")
    (hstop : env.provider.stopInstance = some (.ok stopped))
    (himage : env.provider.createImage = some (.ok imageId))
    (hdelete : env.provider.deleteInstance = some (.ok deleted))
    (hfuel : m < fuel) :
    ∃ w, createInstanceAndImage env fuel args World.init = some (.resolved imageId, w) ∧
      providerCalls w.trace =
        [.createInstance (createSpecOf args)] ++
        List.replicate (k + 1) (.getPublicInstanceAddress instanceId) ++
        [.stopInstance instanceId true, .createImage instanceId args.imageName,
         .deleteInstance instanceId] := by
  rw [createInstanceAndImage_reaches_address env fuel args instanceId address script k
    hstart hname hlog hcreate haddr hk hnone hfound haddress]
  rw [bakeFromAddress_body env fuel args instanceId address _ m text hlog haddress
    (by simpa using hfail) (by simpa using hbody) hm hfuel]
  rw [if_neg htext, stopImageDelete_ok env.provider args instanceId _ stopped imageId deleted
    hlog hstop himage hdelete]
  refine ⟨_, rfl, ?_⟩
  simp only [providerCalls_append, providerCalls_pollEvents, providerCalls_failedProbesEvents]
  simp [providerCalls, List.replicate_succ']

/-- The happy-path scenario: address on the third poll, `ready` on the second
probe, image `img-1`. -/
theorem createInstanceAndImage_happy_path_witness :
    ∃ w, createInstanceAndImage stubEnv 300 stubArgs World.init =
        some (.resolved (.str "img-1"), w) ∧
      providerCalls w.trace =
        [.createInstance (createSpecOf stubArgs)] ++
        List.replicate (2 + 1) (.getPublicInstanceAddress (.str "i-1")) ++
        [.stopInstance (.str "i-1") true, .createImage (.str "i-1") stubArgs.imageName,
         .deleteInstance (.str "i-1")] :=
  createInstanceAndImage_happy_path stubEnv 300 stubArgs (.str "i-1") (.str "10.0.0.5")
    .undefined (.str "img-1") .undefined
    (fun n => if n < 2 then .ok .null else .ok (.str "10.0.0.5")) 2 1 "ready"
    (by decide) (by decide) rfl rfl rfl (by decide)
    (fun j hj => ⟨.null, by simp [hj], rfl⟩) (by simp) (by decide) (by decide)
    (fun j hj => ⟨refusedError, by rw [Nat.lt_one_iff.mp hj]; rfl⟩) (by simp [stubEnv]) (by decide)
    rfl rfl rfl (by decide)

/-! ## The bake workflow: address wait (C3, C6) -/

/-- C3: with valid arguments and a created instance, when none of the ten
address polls yields a truthy address, `createInstanceAndImage` polls exactly
ten times, sleeps 5 seconds after each poll (50 seconds in all), and then
rejects with `Error('Unable to get public url for instance.')`; the provider
calls of the run are the creation and the ten polls, so `stopInstance`,
`createImage` and `deleteInstance` are never invoked. -/
theorem createInstanceAndImage_address_timeout (env : Env) (fuel : Nat) (args : BakeArgs)
    (instanceId : JsVal) (script : Nat → Except JsError JsVal)
    (hstart : truthy args.startupScript = true) (hname : truthy args.imageName = true)
    (hlog : args.logger = true)
    (hcreate : env.provider.createInstance = some (.ok instanceId))
    (haddr : env.provider.getPublicInstanceAddress = some script)
    (hnone : ∀ j, j < 10 → ∃ v, script j = .ok v ∧ truthy v = false) :
    ∃ w, createInstanceAndImage env fuel args World.init =
        some (.rejected (mkError "Unable to get public url for instance."), w) ∧
      w.trace = [.createInstance (createSpecOf args), .log "info"] ++
        pollEvents instanceId 10 ++ [.log "error"] ∧
      w.addressPolls = 10 ∧
      sleptTotal w.trace = 50 ∧
      providerCalls w.trace =
        .createInstance (createSpecOf args) ::
          List.replicate 10 (.getPublicInstanceAddress instanceId) := by
  obtain ⟨last, hlast, hloop⟩ := addressLoop_exhausted env.provider instanceId script haddr 10
    .null { trace := [.createInstance (createSpecOf args), .log "info"],
            addressPolls := 0, probes := 0, imageChecks := 0 } rfl (by simpa using hnone)
  refine ⟨{ trace := [.createInstance (createSpecOf args), .log "info"] ++
              pollEvents instanceId 10 ++ [.log "error"],
            addressPolls := 10, probes := 0, imageChecks := 0 }, ?_, rfl, rfl, ?_, ?_⟩
  · simp only [createInstanceAndImage, hstart, hname, hlog, hcreate, callOp, logCall,
      bakeInstance, World.init, World.record]
    simp only [List.nil_append, List.singleton_append, Bool.true_eq_false, if_false, if_true]
    rw [hloop]
    simp [hlast]
  · simp [sleptTotal_append, sleptTotal, pollEvents]
  · simp only [providerCalls_append, providerCalls_pollEvents]
    simp [providerCalls]

/-- A provider that never has an address. -/
theorem createInstanceAndImage_address_timeout_witness :
    ∃ w, createInstanceAndImage { stubEnv with provider := noAddressProvider } 0 stubArgs
          World.init =
        some (.rejected (mkError "Unable to get public url for instance."), w) ∧
      w.trace = [.createInstance (createSpecOf stubArgs), .log "info"] ++
        pollEvents (.str "i-1") 10 ++ [.log "error"] ∧
      w.addressPolls = 10 ∧
      sleptTotal w.trace = 50 ∧
      providerCalls w.trace =
        .createInstance (createSpecOf stubArgs) ::
          List.replicate 10 (.getPublicInstanceAddress (.str "i-1")) :=
  createInstanceAndImage_address_timeout { stubEnv with provider := noAddressProvider } 0
    stubArgs (.str "i-1") (fun _ => .ok .undefined) (by decide) (by decide) rfl rfl rfl
    (fun _ _ => ⟨.undefined, rfl, rfl⟩)

/-- C6: with valid arguments and a created instance, when the first `k` address
polls yield no address and poll `k` (counting from zero, so the `(k+1)`-th of
at most ten) rejects with `e`, `createInstanceAndImage` rejects with exactly
`e` after exactly `k + 1` address polls; the provider calls of the run are the
creation and these polls, and no probe is issued. -/
theorem createInstanceAndImage_address_error (env : Env) (fuel : Nat) (args : BakeArgs)
    (instanceId : JsVal) (script : Nat → Except JsError JsVal) (k : Nat) (e : JsError)
    (hstart : truthy args.startupScript = true) (hname : truthy args.imageName = true)
    (hlog : args.logger = true)
    (hcreate : env.provider.createInstance = some (.ok instanceId))
    (haddr : env.provider.getPublicInstanceAddress = some script)
    (hk : k < 10)
    (hnone : ∀ j, j < k → ∃ v, script j = .ok v ∧ truthy v = false)
    (hfail : script k = .error e) :
    ∃ w, createInstanceAndImage env fuel args World.init = some (.rejected e, w) ∧
      w.addressPolls = k + 1 ∧
      probeCount w.trace = 0 ∧
      providerCalls w.trace =
        .createInstance (createSpecOf args) ::
          List.replicate (k + 1) (.getPublicInstanceAddress instanceId) := by
  obtain ⟨left, hleft⟩ : ∃ left, 10 = k + (left + 1) := ⟨9 - k, by omega⟩
  have hloop := addressLoop_error env.provider instanceId script haddr k left .null
    { trace := [.createInstance (createSpecOf args), .log "info"],
      addressPolls := 0, probes := 0, imageChecks := 0 } rfl
    (by simpa using hnone) e (by simpa using hfail)
  rw [← hleft] at hloop
  refine ⟨{ trace := [.createInstance (createSpecOf args), .log "info"] ++
              pollEvents instanceId k ++ [.getPublicInstanceAddress instanceId],
            addressPolls := k + 1, probes := 0, imageChecks := 0 }, ?_, rfl, ?_, ?_⟩
  · simp only [createInstanceAndImage, hstart, hname, hlog, hcreate, callOp, logCall,
      bakeInstance, World.init, World.record]
    simp only [List.nil_append, List.singleton_append, Bool.true_eq_false, if_false, if_true]
    simp only [List.cons_append, List.nil_append, List.append_assoc] at hloop ⊢
    rw [hloop]
    simp
  · have hpoll : ∀ n, probeCount (pollEvents instanceId n) = 0 := by
      intro n
      induction n with
      | zero => rfl
      | succ n ih => rw [pollEvents, probeCount_append, ih]; simp [probeCount]
    simp only [probeCount_append, hpoll]
    simp [probeCount]
  · simp only [providerCalls_append, providerCalls_pollEvents]
    simp [providerCalls, List.replicate_succ']

/-- A provider whose second address poll rejects with a quota error. -/
theorem createInstanceAndImage_address_error_witness :
    ∃ w, createInstanceAndImage { stubEnv with provider := failingAddressProvider } 0 stubArgs
          World.init = some (.rejected quotaError, w) ∧
      w.addressPolls = 1 + 1 ∧
      probeCount w.trace = 0 ∧
      providerCalls w.trace =
        .createInstance (createSpecOf stubArgs) ::
          List.replicate (1 + 1) (.getPublicInstanceAddress (.str "i-1")) :=
  createInstanceAndImage_address_error { stubEnv with provider := failingAddressProvider } 0
    stubArgs (.str "i-1") (fun n => if n < 1 then .ok .null else .error quotaError) 1 quotaError
    (by decide) (by decide) rfl rfl rfl (by decide)
    (fun j hj => ⟨.null, by simp [hj], rfl⟩) (by simp)

/-! ## The aws image wait (C4) -/

/-- C4: for every image id, awaited state and timeout `T`, on an initialised
adapter whose `describeImage` calls all succeed, `waitForImageState` settles
after at most `ceil(T / 5)` `describeImage` checks, and it rejects with the
timeout error if and only if none of the first `ceil(T / 5)` results shows
the image, with matching `ImageId`, in the awaited state; for the default
`T = 10000` the bound is 2000. -/
theorem waitForImageState_check_bound (env : AwsEnv) (fuel : Nat) (imageId state : JsVal)
    (opts : WaitOpts) (results : Nat → Option ImageList)
    (hlog : env.logger = true)
    (hres : ∀ j, j < ceilDiv opts.timeoutInSec 5 → env.describeImages j = .ok (results j))
    (hfuel : ceilDiv opts.timeoutInSec 5 ≤ fuel) :
    ∃ c w, waitForImageState env fuel imageId state opts World.init = some (c, w) ∧
      imageCheckCount w.trace ≤ ceilDiv opts.timeoutInSec 5 ∧
      (c = .rejected (imageTimeoutError imageId state) ↔
        ∀ j, j < ceilDiv opts.timeoutInSec 5 → imageReady (results j) imageId state = false) ∧
      ceilDiv ({} : WaitOpts).timeoutInSec 5 = 2000 := by
  have hN : ∀ j, j < ceilDiv opts.timeoutInSec 5 → 0 + j * 5 < opts.timeoutInSec := by
    intro j hj
    unfold ceilDiv at hj
    omega
  have hend : opts.timeoutInSec ≤ 0 + ceilDiv opts.timeoutInSec 5 * 5 := by
    unfold ceilDiv
    omega
  by_cases hex : ∃ j, j < ceilDiv opts.timeoutInSec 5 ∧ imageReady (results j) imageId state = true
  · have hj0 := Nat.find_spec hex
    have hmin : ∀ i, i < Nat.find hex → imageReady (results i) imageId state = false := by
      intro i hi
      have hnot := Nat.find_min hex hi
      have hilt : i < ceilDiv opts.timeoutInSec 5 := Nat.lt_trans hi hj0.1
      cases hr : imageReady (results i) imageId state with
      | false => rfl
      | true => exact absurd ⟨hilt, hr⟩ hnot
    obtain ⟨r, hr⟩ : ∃ r, fuel = Nat.find hex + (r + 1) :=
      ⟨fuel - Nat.find hex - 1, by have := hj0.1; omega⟩
    have hskip := imageStateLoop_skip env imageId state opts.timeoutInSec (r + 1) hlog
      (Nat.find hex) 0 World.init
      (fun i hi => ⟨results i,
        by simpa [World.init] using hres i (Nat.lt_trans hi hj0.1), hmin i hi⟩)
      (fun i hi => hN i (Nat.lt_trans hi hj0.1))
    have hready := imageStateLoop_ready env imageId state opts.timeoutInSec r
      (0 + Nat.find hex * 5)
      { World.init with trace := World.init.trace ++ imageWaitEvents imageId (Nat.find hex),
                        imageChecks := World.init.imageChecks + Nat.find hex }
      (results (Nat.find hex)) (by simpa [World.init] using hres _ hj0.1) hj0.2 (hN _ hj0.1)
    refine ⟨.resolved (firstImage (results (Nat.find hex))),
      { trace := imageWaitEvents imageId (Nat.find hex) ++ [.describeImage imageId],
        addressPolls := 0, probes := 0, imageChecks := Nat.find hex + 1 }, ?_, ?_, ?_, by decide⟩
    · rw [waitForImageState, hr, hskip, hready]
      simp [World.init]
    · simp only [imageCheckCount_append, imageCheckCount_imageWaitEvents]
      have := hj0.1
      simp [imageCheckCount]
      omega
    · constructor
      · intro hc
        exact absurd hc (by simp)
      · intro hall
        have := hall _ hj0.1
        rw [hj0.2] at this
        exact absurd this (by simp)
  · have hall : ∀ j, j < ceilDiv opts.timeoutInSec 5 →
        imageReady (results j) imageId state = false := by
      intro j hj
      cases hr : imageReady (results j) imageId state with
      | false => rfl
      | true => exact absurd ⟨j, hj, hr⟩ hex
    obtain ⟨r, hr⟩ : ∃ r, fuel = ceilDiv opts.timeoutInSec 5 + r :=
      ⟨fuel - ceilDiv opts.timeoutInSec 5, by omega⟩
    have hskip := imageStateLoop_skip env imageId state opts.timeoutInSec r hlog
      (ceilDiv opts.timeoutInSec 5) 0 World.init
      (fun i hi => ⟨results i, by simpa [World.init] using hres i hi, hall i hi⟩) hN
    refine ⟨.rejected (imageTimeoutError imageId state),
      { trace := imageWaitEvents imageId (ceilDiv opts.timeoutInSec 5),
        addressPolls := 0, probes := 0, imageChecks := ceilDiv opts.timeoutInSec 5 },
      ?_, ?_, ?_, by decide⟩
    · rw [waitForImageState, hr, hskip, imageStateLoop_done _ _ _ _ _ _ _ hend]
      simp [World.init]
    · simp [imageCheckCount_imageWaitEvents]
    · exact ⟨fun _ => hall, fun _ => rfl⟩

/-- An image that becomes available on the third check, awaited with the
default timeout. -/
theorem waitForImageState_check_bound_witness :
    ∃ c w, waitForImageState stubAws 2000 (.str "ami-9") (.str "available") {} World.init =
        some (c, w) ∧
      imageCheckCount w.trace ≤ ceilDiv ({} : WaitOpts).timeoutInSec 5 ∧
      (c = .rejected (imageTimeoutError (.str "ami-9") (.str "available")) ↔
        ∀ j, j < ceilDiv ({} : WaitOpts).timeoutInSec 5 →
          imageReady (stubImageResults j) (.str "ami-9") (.str "available") = false) ∧
      ceilDiv ({} : WaitOpts).timeoutInSec 5 = 2000 :=
  waitForImageState_check_bound stubAws 2000 (.str "ami-9") (.str "available") {}
    stubImageResults rfl (fun _ _ => rfl) (by decide)

/-! ## The readiness wait (C5, C7, C10) -/

/-- C5: for every non-empty address, every poll interval `I > 0` and timeout
`T`, when the first successful probe is the `(m+1)`-th and
`m + 1 ≤ ceil(T / I)`, `waitForConnectivity` issues exactly `m + 1` probes and
resolves with the body of that `(m+1)`-th response. -/
theorem waitForConnectivity_first_success (env : Env) (fuel : Nat) (address : JsVal)
    (opts : ConnectivityOpts) (m : Nat) (text : String)
    (haddress : truthy address = true) (hlog : opts.logger = true)
    (hI : 0 < opts.pollFrequencyInSec)
    (hfail : ∀ j, j < m → ∃ e, env.fetch j = .error e)
    (hbody : env.fetch m = .body text)
    (hm : m + 1 ≤ ceilDiv opts.timeoutInSec opts.pollFrequencyInSec)
    (hfuel : m < fuel) :
    ∃ w, waitForConnectivity env fuel address opts World.init =
        some (.resolved (.str text), w) ∧
      probeCount w.trace = m + 1 ∧ w.probes = m + 1 := by
  have hlt := (succ_le_ceilDiv_iff opts.timeoutInSec opts.pollFrequencyInSec m hI).mp hm
  refine ⟨_, waitForConnectivity_found env fuel address opts m text haddress hlog hfail hbody
    hlt hfuel, ?_, rfl⟩
  simp only [probeCount_append]
  rw [probeCount_failedProbesEvents env.fetch _ _ m 0 (by simpa using hfail)]
  simp [probeCount]

/-- The second probe is the first to answer, with the default budget. -/
theorem waitForConnectivity_first_success_witness :
    ∃ w, waitForConnectivity stubEnv 300 (.str "10.0.0.5") { logger := true } World.init =
        some (.resolved (.str "ready"), w) ∧
      probeCount w.trace = 1 + 1 ∧ w.probes = 1 + 1 :=
  waitForConnectivity_first_success stubEnv 300 (.str "10.0.0.5") { logger := true } 1 "ready"
    (by decide) rfl (by decide)
    (fun j hj => ⟨refusedError, by rw [Nat.lt_one_iff.mp hj]; rfl⟩) rfl (by decide) (by decide)

/-- C7: in `waitForConnectivity` with poll interval `I`, when `m` probes throw
and the next one answers within the budget, the time slept before the answer
is `I` times the number of those `m` outcomes on which `isConditionMet`
sleeps, namely the errors with code `ECONNREFUSED` that are not request
timeouts; request timeouts and all other errors add nothing. In particular
`m` refusals followed by an answer give `m * I`. -/
theorem waitForConnectivity_sleeps_on_refusal (env : Env) (fuel : Nat) (address : JsVal)
    (opts : ConnectivityOpts) (m : Nat) (text : String)
    (haddress : truthy address = true) (hlog : opts.logger = true)
    (hfail : ∀ j, j < m → ∃ e, env.fetch j = .error e)
    (hbody : env.fetch m = .body text)
    (hm : m * opts.pollFrequencyInSec < opts.timeoutInSec) (hfuel : m < fuel) :
    ∃ w, waitForConnectivity env fuel address opts World.init =
        some (.resolved (.str text), w) ∧
      sleptTotal w.trace = opts.pollFrequencyInSec * refusalCount env.fetch 0 m ∧
      ((∀ j, j < m → ∃ e, env.fetch j = .error e ∧ isRefusal e = true) →
        sleptTotal w.trace = m * opts.pollFrequencyInSec) := by
  have hslept : sleptTotal ([Event.log "info"] ++
      failedProbesEvents env.fetch ("http://" ++ toStr address) opts.pollFrequencyInSec 0 m ++
      [Event.fetch ("http://" ++ toStr address) (opts.pollFrequencyInSec * 1000)]) =
      opts.pollFrequencyInSec * refusalCount env.fetch 0 m := by
    simp only [sleptTotal_append, sleptTotal_failedProbesEvents]
    simp [sleptTotal]
  refine ⟨_, waitForConnectivity_found env fuel address opts m text haddress hlog hfail hbody
    hm hfuel, hslept, ?_⟩
  intro hall
  rw [hslept, refusalCount_all env.fetch m 0 (by simpa using hall), Nat.mul_comm]

/-- Two refusals followed by an answer: 2 x 10 seconds slept. -/
theorem waitForConnectivity_sleeps_on_refusal_witness :
    ∃ w, waitForConnectivity twiceRefusedEnv 300 (.str "10.0.0.5") { logger := true }
          World.init = some (.resolved (.str "ready"), w) ∧
      sleptTotal w.trace = 10 * refusalCount twiceRefusedEnv.fetch 0 2 ∧
      ((∀ j, j < 2 → ∃ e, twiceRefusedEnv.fetch j = .error e ∧ isRefusal e = true) →
        sleptTotal w.trace = 2 * 10) :=
  waitForConnectivity_sleeps_on_refusal twiceRefusedEnv 300 (.str "10.0.0.5")
    { logger := true } 2 "ready" (by decide) rfl
    (fun j hj => ⟨refusedError, by simp [twiceRefusedEnv, hj]⟩) rfl (by decide) (by decide)

/-- C10 (as stated, refuted): with `timeoutInSec = 0`, smaller than the poll
interval 10, `waitForConnectivity` does not fail: it resolves with `null`
after zero loop iterations, having done nothing but log. -/
theorem waitForConnectivity_zero_timeout_resolves_null :
    waitForConnectivity stubEnv 300 (.str "10.0.0.5") { timeoutInSec := 0, logger := true }
        World.init =
      some (.resolved .null,
        { trace := [.log "info"], addressPolls := 0, probes := 0, imageChecks := 0 }) := by
  have haddress : truthy (.str "10.0.0.5") = true := by decide
  simp only [waitForConnectivity, haddress, logCall, if_true]
  simp only [Bool.true_eq_false, if_false]
  rw [connectivityLoop_done stubEnv true _ 0 10 300 0 _ (Nat.le_refl 0)]
  rfl

/-- C10 (amended): a call of `waitForConnectivity` whose timeout is smaller
than its poll interval never fails. With timeout 0 it resolves with `null`
without a probe; with a positive timeout it issues exactly one probe and
resolves with that probe's body, or with `null` when the probe threw. -/
theorem waitForConnectivity_short_timeout (env : Env) (fuel : Nat) (address : JsVal)
    (opts : ConnectivityOpts)
    (haddress : truthy address = true) (hlog : opts.logger = true)
    (hlt : opts.timeoutInSec < opts.pollFrequencyInSec) (hfuel : 0 < fuel) :
    ∃ v w, waitForConnectivity env fuel address opts World.init = some (.resolved v, w) ∧
      (opts.timeoutInSec = 0 → v = .null ∧ probeCount w.trace = 0) ∧
      (0 < opts.timeoutInSec →
        probeCount w.trace = 1 ∧
        (∀ text, env.fetch 0 = .body text → v = .str text) ∧
        ((∃ e, env.fetch 0 = .error e) → v = .null)) := by
  by_cases hT : opts.timeoutInSec = 0
  · refine ⟨.null, World.init.record (.log "info"), ?_, fun _ => ⟨rfl, rfl⟩,
      fun h => absurd hT (Nat.pos_iff_ne_zero.mp h)⟩
    simp only [waitForConnectivity, haddress, hlog, logCall, if_true]
    simp only [Bool.true_eq_false, if_false]
    exact connectivityLoop_done env true address _ _ fuel 0 _ (by omega)
  · have hpos : 0 < opts.timeoutInSec := Nat.pos_of_ne_zero hT
    cases hf : env.fetch 0 with
    | body text =>
      refine ⟨.str text, _, waitForConnectivity_found env fuel address opts 0 text haddress hlog
        (fun j hj => absurd hj (Nat.not_lt_zero j)) hf (by omega) hfuel,
        fun h => absurd h hT, fun _ => ⟨?_, ?_, ?_⟩⟩
      · simp [probeCount, failedProbesEvents]
      · intro t ht
        rw [FetchOutcome.body.inj ht]
      · rintro ⟨e, he⟩
        exact absurd he (by simp)
    | error e =>
      have hloop := connectivityLoop_exhausted env address opts.timeoutInSec
        opts.pollFrequencyInSec fuel 1 0 (World.init.record (.log "info"))
        (fun j hj => ⟨e, by rw [Nat.lt_one_iff.mp hj]; exact hf⟩)
        (fun j hj => by rw [Nat.lt_one_iff.mp hj]; omega) (by omega) hfuel
      refine ⟨.null,
        { trace := [.log "info"] ++ failedProbesEvents env.fetch ("http://" ++ toStr address)
            opts.pollFrequencyInSec 0 1,
          addressPolls := 0, probes := 1, imageChecks := 0 },
        ?_, fun h => absurd h hT, fun _ => ⟨?_, ?_, fun _ => rfl⟩⟩
      · simp only [waitForConnectivity, haddress, hlog, logCall, if_true]
        simp only [Bool.true_eq_false, if_false]
        rw [hloop]
        simp [World.init, World.record]
      · simp only [probeCount_append]
        rw [probeCount_failedProbesEvents env.fetch _ _ 1 0
          (fun j hj => ⟨e, by rw [Nat.lt_one_iff.mp hj]; exact hf⟩)]
        simp [probeCount]
      · intro t ht
        exact absurd ht (by simp)

/-- A timeout of 5 seconds against an interval of 10: one probe, no error. -/
theorem waitForConnectivity_short_timeout_witness :
    ∃ v w, waitForConnectivity stubEnv 300 (.str "10.0.0.5")
          { timeoutInSec := 5, logger := true } World.init = some (.resolved v, w) ∧
      ((5 : Nat) = 0 → v = .null ∧ probeCount w.trace = 0) ∧
      (0 < (5 : Nat) →
        probeCount w.trace = 1 ∧
        (∀ text, stubEnv.fetch 0 = .body text → v = .str text) ∧
        ((∃ e, stubEnv.fetch 0 = .error e) → v = .null)) :=
  waitForConnectivity_short_timeout stubEnv 300 (.str "10.0.0.5")
    { timeoutInSec := 5, logger := true } (by decide) rfl (by decide) (by decide)

/-! ## The bake workflow: readiness wait (C8, C9) -/

/-- C8 (as stated, refuted): on a network where every probe times out, the
workflow does not fail: after the readiness budget it resolves with
`null`. -/
theorem createInstanceAndImage_silent_network_resolves_null :
    ∃ w, createInstanceAndImage silentEnv 300 stubArgs World.init =
      some (.resolved .null, w) := by
  rw [createInstanceAndImage_reaches_address silentEnv 300 stubArgs (.str "i-1")
    (.str "10.0.0.5") (fun n => if n < 2 then .ok .null else .ok (.str "10.0.0.5")) 2
    (by decide) (by decide) rfl rfl rfl (by decide)
    (fun j hj => ⟨.null, by simp [hj], rfl⟩) (by simp) (by decide)]
  rw [bakeFromAddress_exhausted silentEnv 300 stubArgs (.str "i-1") (.str "10.0.0.5") _ rfl
    (by decide) (fun _ _ => ⟨timeoutError, rfl⟩) (Nat.le_refl 300)]
  exact ⟨_, rfl⟩

/-- C8 (amended): with valid arguments, a created instance and an address
within the ten polls, when all 300 probes of the readiness budget (timeout
3000, interval 10) throw, `createInstanceAndImage` completes normally with
`null` after exactly 300 probes; the provider calls of the run are the
creation and the address polls, so `stopInstance`, `createImage` and
`deleteInstance` are never invoked. -/
theorem createInstanceAndImage_readiness_timeout (env : Env) (fuel : Nat) (args : BakeArgs)
    (instanceId address : JsVal) (script : Nat → Except JsError JsVal) (k : Nat)
    (hstart : truthy args.startupScript = true) (hname : truthy args.imageName = true)
    (hlog : args.logger = true)
    (hcreate : env.provider.createInstance = some (.ok instanceId))
    (haddr : env.provider.getPublicInstanceAddress = some script)
    (hk : k < 10)
    (hnone : ∀ j, j < k → ∃ v, script j = .ok v ∧ truthy v = false)
    (hfound : script k = .ok address) (haddress : truthy address = true)
    (hfail : ∀ j, j < 300 → ∃ e, env.fetch j = .error e)
    (hfuel : 300 ≤ fuel) :
    ∃ w, createInstanceAndImage env fuel args World.init = some (.resolved .null, w) ∧
      probeCount w.trace = 300 ∧
      providerCalls w.trace =
        .createInstance (createSpecOf args) ::
          List.replicate (k + 1) (.getPublicInstanceAddress instanceId) := by
  rw [createInstanceAndImage_reaches_address env fuel args instanceId address script k
    hstart hname hlog hcreate haddr hk hnone hfound haddress]
  rw [bakeFromAddress_exhausted env fuel args instanceId address _ hlog haddress
    (by simpa using hfail) hfuel]
  have hpoll : ∀ n, probeCount (pollEvents instanceId n) = 0 := by
    intro n
    induction n with
    | zero => rfl
    | succ n ih => rw [pollEvents, probeCount_append, ih]; simp [probeCount]
  refine ⟨_, rfl, ?_, ?_⟩
  · simp only [probeCount_append, hpoll]
    rw [probeCount_failedProbesEvents env.fetch _ _ 300 0 (by simpa using hfail)]
    simp [probeCount]
  · simp only [providerCalls_append, providerCalls_pollEvents, providerCalls_failedProbesEvents]
    simp [providerCalls, List.replicate_succ']

/-- A network on which every probe times out. -/
theorem createInstanceAndImage_readiness_timeout_witness :
    ∃ w, createInstanceAndImage silentEnv 300 stubArgs World.init =
        some (.resolved .null, w) ∧
      probeCount w.trace = 300 ∧
      providerCalls w.trace =
        .createInstance (createSpecOf stubArgs) ::
          List.replicate (2 + 1) (.getPublicInstanceAddress (.str "i-1")) :=
  createInstanceAndImage_readiness_timeout silentEnv 300 stubArgs (.str "i-1")
    (.str "10.0.0.5") (fun n => if n < 2 then .ok .null else .ok (.str "10.0.0.5")) 2
    (by decide) (by decide) rfl rfl rfl (by decide)
    (fun j hj => ⟨.null, by simp [hj], rfl⟩) (by simp) (by decide)
    (fun _ _ => ⟨timeoutError, rfl⟩) (Nat.le_refl 300)

/-- C9 (the code at the failing input): when the first probe returns the empty
body, `waitForConnectivity` resolves with that body, yet
`createInstanceAndImage` stops there and returns `null`: the provider calls
of the run are the creation and the three address polls, without
`stopInstance`, `createImage` or `deleteInstance`. -/
theorem createInstanceAndImage_empty_body_returns_null :
    (∃ w, waitForConnectivity emptyBodyEnv 300 (.str "10.0.0.5") { logger := true }
        World.init = some (.resolved (.str ""), w)) ∧
    ∃ w, createInstanceAndImage emptyBodyEnv 300 stubArgs World.init =
        some (.resolved .null, w) ∧
      providerCalls w.trace =
        .createInstance (createSpecOf stubArgs) ::
          List.replicate 3 (.getPublicInstanceAddress (.str "i-1")) := by
  constructor
  · exact ⟨_, waitForConnectivity_found emptyBodyEnv 300 (.str "10.0.0.5") { logger := true }
      0 "" (by decide) rfl (fun j hj => absurd hj (Nat.not_lt_zero j)) rfl (by decide)
      (by decide)⟩
  · rw [createInstanceAndImage_reaches_address emptyBodyEnv 300 stubArgs (.str "i-1")
      (.str "10.0.0.5") (fun n => if n < 2 then .ok .null else .ok (.str "10.0.0.5")) 2
      (by decide) (by decide) rfl rfl rfl (by decide)
      (fun j hj => ⟨.null, by simp [hj], rfl⟩) (by simp) (by decide)]
    rw [bakeFromAddress_body emptyBodyEnv 300 stubArgs (.str "i-1") (.str "10.0.0.5") _ 0 ""
      rfl (by decide) (fun j hj => absurd hj (Nat.not_lt_zero j)) rfl (by decide) (by decide)]
    refine ⟨_, if_pos rfl, ?_⟩
    simp only [providerCalls_append, providerCalls_pollEvents, providerCalls_failedProbesEvents]
    simp [providerCalls, List.replicate_succ]

/-! ## Helper lemmas: the aws instance wait loop -/

/-- One iteration that found the instance in another state: log, sleep 5,
go on. -/
theorem instanceStateLoop_wait_step (env : AwsAdapter) (instanceId state : JsVal)
    (T fuel t : Nat) (w : World) (d : Option InstanceDescription) (record : InstanceRecord)
    (st : InstanceState) (hlog : env.logger = true)
    (hd : env.describeInstances w.instanceChecks = .ok d)
    (hrecord : firstInstance d = some record) (hstate : record.State = some st)
    (hnot : st.Name ≠ state) (ht : t < T) :
    instanceStateLoop env instanceId state T (fuel + 1) t w =
      instanceStateLoop env instanceId state T fuel (t + 5)
        { w with trace := w.trace ++ [.describeInstance instanceId, .log "debug", .sleep 5],
                 instanceChecks := w.instanceChecks + 1 } := by
  rw [instanceStateLoop]
  simp [describeInstance, hd, instanceInState, hrecord, hstate, hnot, ht, hlog, logCall, sleep,
    World.record]

/-- An iteration whose description holds no instance record: the unguarded
`instance.State.Name` of line 100 throws, and the promise stays unsettled
right after the `describeInstance` call. -/
theorem instanceStateLoop_no_record (env : AwsAdapter) (instanceId state : JsVal)
    (T fuel t : Nat) (w : World) (d : Option InstanceDescription)
    (hd : env.describeInstances w.instanceChecks = .ok d)
    (hnone : firstInstance d = none) (ht : t < T) :
    instanceStateLoop env instanceId state T (fuel + 1) t w =
      some (.pending,
        { w with trace := w.trace ++ [.describeInstance instanceId],
                 instanceChecks := w.instanceChecks + 1 }) := by
  rw [instanceStateLoop]
  simp [describeInstance, hd, instanceInState, hnone, ht, World.record]

/-- After `n` iterations that each found the instance in another state, the
loop is where it would be had it started `5 * n` seconds later. -/
theorem instanceStateLoop_skip (env : AwsAdapter) (instanceId state : JsVal) (T fuel : Nat)
    (hlog : env.logger = true) :
    ∀ (n t : Nat) (w : World),
      (∀ j, j < n → ∃ d record st, env.describeInstances (w.instanceChecks + j) = .ok d ∧
        firstInstance d = some record ∧ record.State = some st ∧ st.Name ≠ state) →
      (∀ j, j < n → t + j * 5 < T) →
      instanceStateLoop env instanceId state T (n + fuel) t w =
        instanceStateLoop env instanceId state T fuel (t + n * 5)
          { w with trace := w.trace ++ instanceWaitEvents instanceId n,
                   instanceChecks := w.instanceChecks + n } := by
  intro n
  induction n with
  | zero =>
    intro t w _ _
    simp [instanceWaitEvents]
  | succ n ih =>
    intro t w h hT
    obtain ⟨d, record, st, hd, hrecord, hstate, hnot⟩ := h 0 (Nat.succ_pos n)
    simp only [Nat.add_zero] at hd
    have ht : t < T := by simpa using hT 0 (Nat.succ_pos n)
    have hn : n + 1 + fuel = (n + fuel) + 1 := by omega
    rw [hn, instanceStateLoop_wait_step env instanceId state T (n + fuel) t w d record st hlog
      hd hrecord hstate hnot ht]
    rw [ih]
    · congr 1
      · omega
      · simp [instanceWaitEvents, Nat.add_assoc, Nat.add_comm 1 n]
    · intro j hj
      obtain ⟨u, r, s, hu, hr, hs, hne⟩ := h (j + 1) (Nat.succ_lt_succ hj)
      exact ⟨u, r, s, by simpa [Nat.add_assoc, Nat.add_comm 1 j] using hu, hr, hs, hne⟩
    · intro j hj
      have := hT (j + 1) (Nat.succ_lt_succ hj)
      omega

/-- Once `t` has reached the timeout the loop rejects with the timeout error
and does nothing else. -/
theorem instanceStateLoop_done (env : AwsAdapter) (instanceId state : JsVal) (T fuel t : Nat)
    (w : World) (ht : T ≤ t) :
    instanceStateLoop env instanceId state T fuel t w =
      some (.rejected (instanceTimeoutError instanceId state), w) := by
  cases fuel <;> simp [instanceStateLoop, Nat.not_lt.mpr ht]

/-- On an initialised adapter whose instance is in another state on each of
the `ceil(T / 5)` polls of the budget, `waitForInstanceState` rejects with the
timeout error after exactly that many polls. -/
theorem waitForInstanceState_exhausted (env : AwsAdapter) (fuel : Nat)
    (instanceId state : JsVal) (opts : WaitOpts) (w : World) (hlog : env.logger = true)
    (hnot : ∀ j, j < ceilDiv opts.timeoutInSec 5 →
      ∃ d record st, env.describeInstances (w.instanceChecks + j) = .ok d ∧
        firstInstance d = some record ∧ record.State = some st ∧ st.Name ≠ state)
    (hfuel : ceilDiv opts.timeoutInSec 5 ≤ fuel) :
    waitForInstanceState env fuel instanceId state opts w =
      some (.rejected (instanceTimeoutError instanceId state),
        { w with trace := w.trace ++ instanceWaitEvents instanceId (ceilDiv opts.timeoutInSec 5),
                 instanceChecks := w.instanceChecks + ceilDiv opts.timeoutInSec 5 }) := by
  obtain ⟨r, hr⟩ : ∃ r, fuel = ceilDiv opts.timeoutInSec 5 + r :=
    ⟨fuel - ceilDiv opts.timeoutInSec 5, by omega⟩
  have hN : ∀ j, j < ceilDiv opts.timeoutInSec 5 → 0 + j * 5 < opts.timeoutInSec := by
    intro j hj
    unfold ceilDiv at hj
    omega
  have hend : opts.timeoutInSec ≤ 0 + ceilDiv opts.timeoutInSec 5 * 5 := by
    unfold ceilDiv
    omega
  rw [waitForInstanceState, hr,
    instanceStateLoop_skip env instanceId state opts.timeoutInSec r hlog _ 0 w hnot hN,
    instanceStateLoop_done _ _ _ _ _ _ _ hend]

/-- With a successful stop request and `awaitShutdown = true`, what
`stopInstance` settles with is decided by the wait alone: it resolves when the
wait resolves and stays unsettled when the wait rejects or stays
unsettled. -/
theorem stopInstance_await (env : AwsAdapter) (fuel : Nat) (instanceId : JsVal) (w : World)
    (data : JsVal) (hstop : env.stopInstances = .ok data) (hdata : truthy data = true) :
    stopInstance env fuel instanceId true w =
      match waitForInstanceState env fuel instanceId (.str "stopped") {}
          (w.record (.ec2StopInstances instanceId)) with
      | none => none
      | some (.resolved _, w2) => some (.resolved data, w2)
      | some (.rejected _, w2) => some (.pending, w2)
      | some (.pending, w2) => some (.pending, w2) := by
  simp [stopInstance, hstop, hdata]

/-- The first description holds no instance record: `waitForInstanceState`
stays unsettled after that one `describeInstance` call, without a sleep and
without a second poll. -/
theorem waitForInstanceState_no_record (env : AwsAdapter) (fuel : Nat)
    (instanceId state : JsVal) (opts : WaitOpts) (d : Option InstanceDescription)
    (hd : env.describeInstances 0 = .ok d) (hnone : firstInstance d = none)
    (hT : 0 < opts.timeoutInSec) (hfuel : 0 < fuel) :
    waitForInstanceState env fuel instanceId state opts World.init =
      some (.pending,
        { trace := [.describeInstance instanceId], addressPolls := 0, probes := 0,
          imageChecks := 0, instanceChecks := 1 }) := by
  obtain ⟨r, rfl⟩ : ∃ r, fuel = r + 1 := ⟨fuel - 1, by omega⟩
  rw [waitForInstanceState, instanceStateLoop_no_record env instanceId state _ r 0 World.init d
    hd hnone hT]
  simp [World.init]

/-- Whenever the instance wait resolves, it resolves with the description of
one of its own polls, and that description shows the instance in the awaited
state. -/
theorem instanceStateLoop_resolved (env : AwsAdapter) (instanceId state : JsVal) (T : Nat) :
    ∀ (fuel t : Nat) (w w1 : World) (d : Option InstanceDescription),
      instanceStateLoop env instanceId state T fuel t w = some (.resolved d, w1) →
      ∃ j, w.instanceChecks ≤ j ∧ j < w1.instanceChecks ∧
        env.describeInstances j = .ok d ∧ instanceInState d state = true := by
  intro fuel
  induction fuel with
  | zero =>
    intro t w w1 d h
    rw [instanceStateLoop] at h
    split at h <;> simp at h
  | succ fuel ih =>
    intro t w w1 d h
    rw [instanceStateLoop] at h
    split at h
    · cases hd : env.describeInstances w.instanceChecks with
      | error e =>
        cases hl : logCall env.logger "error"
            { w.record (.describeInstance instanceId) with
              instanceChecks := w.instanceChecks + 1 } <;>
          simp [describeInstance, hd, hl] at h
      | ok data =>
        simp only [describeInstance, hd] at h
        by_cases hin : instanceInState data state = true
        · simp only [hin, if_true, Option.some.injEq, Prod.mk.injEq,
            Completion.resolved.injEq] at h
          obtain ⟨rfl, rfl⟩ := h
          exact ⟨w.instanceChecks, Nat.le_refl _, Nat.lt_succ_self _, hd, hin⟩
        · simp only [hin, Bool.false_eq_true, if_false] at h
          split at h
          · simp at h
          · split at h
            · simp at h
            · split at h
              · simp at h
              · rename_i w2 hw2
                obtain ⟨j, hj1, hj2, hj3, hj4⟩ := ih _ _ _ _ h
                have hchecks : w2.instanceChecks = w.instanceChecks + 1 := by
                  unfold logCall at hw2
                  split at hw2
                  · simp only [Except.ok.injEq] at hw2
                    rw [← hw2]
                    simp [World.record]
                  · simp at hw2
                refine ⟨j, ?_, hj2, hj3, hj4⟩
                simp only [sleep, World.record] at hj1
                omega
    · simp at h

/-- The first half of C11: whenever the aws `stopInstance` with
`awaitShutdown = true` resolves, one of the `describeInstance` polls made
before it resolved has shown the instance in state `stopped`. -/
theorem stopInstance_resolved_after_stopped (env : AwsAdapter) (fuel : Nat)
    (instanceId v : JsVal) (w w1 : World)
    (h : stopInstance env fuel instanceId true w = some (.resolved v, w1)) :
    ∃ j d, w.instanceChecks ≤ j ∧ j < w1.instanceChecks ∧
      env.describeInstances j = .ok d ∧ instanceInState d (.str "stopped") = true := by
  unfold stopInstance at h
  cases hs : env.stopInstances with
  | error e =>
    cases hl : logCall env.logger "error" (w.record (.ec2StopInstances instanceId)) <;>
      simp [hs, hl] at h
  | ok data =>
    by_cases hdata : truthy data = false
    · cases hl : logCall env.logger "error" (w.record (.ec2StopInstances instanceId)) <;>
        simp [hs, hl, hdata] at h
    · simp only [hs, hdata, if_false, if_true] at h
      cases hwait : waitForInstanceState env fuel instanceId (.str "stopped") {}
          (w.record (.ec2StopInstances instanceId)) with
      | none => simp [hwait] at h
      | some r =>
        obtain ⟨c, w2⟩ := r
        cases c with
        | rejected e => simp [hwait] at h
        | pending => simp [hwait] at h
        | resolved d =>
          simp only [hwait, Option.some.injEq, Prod.mk.injEq, Completion.resolved.injEq] at h
          obtain ⟨_, rfl⟩ := h
          obtain ⟨j, hj1, hj2, hj3, hj4⟩ :=
            instanceStateLoop_resolved env instanceId (.str "stopped") _ _ _ _ _ _ hwait
          exact ⟨j, d, by simpa [World.record] using hj1, hj2, hj3, hj4⟩

/-! ## The aws stop (C11) -/

/-- C11 (the code at the failing input): the stop request succeeds and each of
the 2000 polls of the wait budget shows the instance in state `stopping`.
`waitForInstanceState` rejects with the timeout error after those 2000 polls,
yet `stopInstance` with `awaitShutdown = true` does not settle at all: the
rejection is thrown inside the async callback of `ec2.stopInstances`, where
nothing calls `reject`. -/
theorem stopInstance_wait_timeout_never_settles :
    (∃ w, waitForInstanceState stuckAws 2000 (.str "i-1") (.str "stopped") {}
          (World.init.record (.ec2StopInstances (.str "i-1"))) =
        some (.rejected (instanceTimeoutError (.str "i-1") (.str "stopped")), w) ∧
      w.instanceChecks = 2000) ∧
    ∃ w, stopInstance stuckAws 2000 (.str "i-1") true World.init = some (.pending, w) ∧
      w.instanceChecks = 2000 := by
  have hwait := waitForInstanceState_exhausted stuckAws 2000 (.str "i-1") (.str "stopped") {}
    (World.init.record (.ec2StopInstances (.str "i-1"))) rfl
    (fun _ _ => ⟨describedIn "stopping", { State := some { Name := .str "stopping" } },
      { Name := .str "stopping" }, rfl, rfl, rfl, by decide⟩)
    (by decide)
  refine ⟨⟨_, hwait, by decide⟩, ?_⟩
  rw [stopInstance_await stuckAws 2000 (.str "i-1") World.init (.obj "StoppingInstances") rfl
    (by decide), hwait]
  exact ⟨_, rfl, by decide⟩

/-! ## The aws instance wait without an instance record (C15) -/

/-- C15 (the code at the failing inputs): for a null description, missing or
empty `Reservations`, missing or empty `Instances`, `waitForInstanceState`
stays unsettled right after the first `describeInstance` call: it neither
sleeps nor polls again. `waitForImageState` on a backend without the image
does go on: with a timeout of 10 seconds it checks, logs and sleeps twice and
then rejects with the timeout error. -/
theorem waitForInstanceState_absent_record_never_settles :
    waitForInstanceState (awsDescribing none) 2000 (.str "i-1") (.str "stopped") {}
        World.init =
      some (.pending,
        { trace := [.describeInstance (.str "i-1")], addressPolls := 0, probes := 0,
          imageChecks := 0, instanceChecks := 1 }) ∧
    waitForInstanceState (awsDescribing (some { Reservations := none })) 2000 (.str "i-1")
        (.str "stopped") {} World.init =
      some (.pending,
        { trace := [.describeInstance (.str "i-1")], addressPolls := 0, probes := 0,
          imageChecks := 0, instanceChecks := 1 }) ∧
    waitForInstanceState (awsDescribing (some { Reservations := some [] })) 2000 (.str "i-1")
        (.str "stopped") {} World.init =
      some (.pending,
        { trace := [.describeInstance (.str "i-1")], addressPolls := 0, probes := 0,
          imageChecks := 0, instanceChecks := 1 }) ∧
    waitForInstanceState
        (awsDescribing (some { Reservations := some [{ Instances := none }] })) 2000
        (.str "i-1") (.str "stopped") {} World.init =
      some (.pending,
        { trace := [.describeInstance (.str "i-1")], addressPolls := 0, probes := 0,
          imageChecks := 0, instanceChecks := 1 }) ∧
    waitForInstanceState
        (awsDescribing (some { Reservations := some [{ Instances := some [] }] })) 2000
        (.str "i-1") (.str "stopped") {} World.init =
      some (.pending,
        { trace := [.describeInstance (.str "i-1")], addressPolls := 0, probes := 0,
          imageChecks := 0, instanceChecks := 1 }) ∧
    waitForImageState absentImageAws 2000 (.str "ami-9") (.str "available")
        { timeoutInSec := 10 } World.init =
      some (.rejected (imageTimeoutError (.str "ami-9") (.str "available")),
        { trace := imageWaitEvents (.str "ami-9") 2, addressPolls := 0, probes := 0,
          imageChecks := 2, instanceChecks := 0 }) := by
  refine ⟨?_, ?_, ?_, ?_, ?_, ?_⟩
  · exact waitForInstanceState_no_record _ 2000 _ _ {} none rfl rfl (by decide) (by decide)
  · exact waitForInstanceState_no_record _ 2000 _ _ {} _ rfl rfl (by decide) (by decide)
  · exact waitForInstanceState_no_record _ 2000 _ _ {} _ rfl rfl (by decide) (by decide)
  · exact waitForInstanceState_no_record _ 2000 _ _ {} _ rfl rfl (by decide) (by decide)
  · exact waitForInstanceState_no_record _ 2000 _ _ {} _ rfl rfl (by decide) (by decide)
  · have hskip := imageStateLoop_skip absentImageAws (.str "ami-9") (.str "available") 10 1998
      rfl 2 0 World.init (fun _ _ => ⟨none, rfl, rfl⟩) (fun j hj => by omega)
    rw [waitForImageState, show (2000 : Nat) = 2 + 1998 from rfl, hskip,
      imageStateLoop_done _ _ _ _ _ _ _ (by decide)]
    simp [World.init]

/-! ## `deleteInstance` on an absent instance (C12) -/

/-- The aws `deleteInstance` on an initialised adapter resolves whatever
`ec2.terminateInstances` reports. -/
theorem deleteInstance_resolves (env : AwsAdapter) (instanceId : JsVal) (w : World)
    (hlog : env.logger = true) :
    ∃ w1, deleteInstance env instanceId w = (.resolved env.terminateInstances.2, w1) := by
  cases h : env.terminateInstances.1 with
  | none =>
    exact ⟨(w.record (.ec2TerminateInstances instanceId)).record (.log "info"),
      by simp [deleteInstance, h, hlog, logCall]⟩
  | some e =>
    exact ⟨((w.record (.ec2TerminateInstances instanceId)).record (.log "error")).record
      (.log "info"), by simp [deleteInstance, h, hlog, logCall]⟩

/-- C12 (as stated, refuted): on the gcloud adapter, when `vm.delete` reports
that the VM does not exist, `deleteInstance` rejects with that error. -/
theorem gcloud_deleteInstance_rejects_on_absent_vm :
    Gcloud.deleteInstance goneGcloud (.str "vm-1") World.init =
      (.rejected notFoundError,
        { trace := [.vmDelete (.str "us-central1-f") (.str "vm-1")], addressPolls := 0,
          probes := 0, imageChecks := 0, instanceChecks := 0 }) := by
  simp [Gcloud.deleteInstance, Gcloud.deleteWorker, goneGcloud, World.init, World.record]

/-- C12 (amended): on an initialised aws adapter `deleteInstance` resolves
whatever the backend reports, an error included, so a second call on the same
identifier resolves as well; on the docker adapter `deleteInstance` completes
normally after `console.error` when `inspect` shows no container with that
identifier; on the gcloud adapter `deleteInstance` rejects with the error that
`vm.delete` reports. -/
theorem deleteInstance_absent_by_adapter (aws again : AwsAdapter) (docker : DockerEnv)
    (gcloud : GcloudEnv) (instanceId : JsVal) (w : World) (err : JsError)
    (hlog : aws.logger = true) (hagain : again.logger = true)
    (hdocker : docker.inspect = .ok none ∨
      ∃ r, docker.inspect = .ok (some r) ∧ r.Id ≠ instanceId)
    (hgcloud : gcloud.vmDelete = .failed err) :
    (∃ w1 w2, deleteInstance aws instanceId w = (.resolved aws.terminateInstances.2, w1) ∧
      deleteInstance again instanceId w1 = (.resolved again.terminateInstances.2, w2)) ∧
    Docker.deleteInstance docker instanceId w =
      (.resolved .undefined,
        { w with trace := w.trace ++ [.inspect instanceId, .consoleError] }) ∧
    Gcloud.deleteInstance gcloud instanceId w =
      (.rejected err, { w with trace := w.trace ++ [.vmDelete gcloud.zoneName instanceId] }) := by
  refine ⟨?_, ?_, ?_⟩
  · obtain ⟨w1, h1⟩ := deleteInstance_resolves aws instanceId w hlog
    obtain ⟨w2, h2⟩ := deleteInstance_resolves again instanceId w1 hagain
    exact ⟨w1, w2, h1, h2⟩
  · rcases hdocker with h | ⟨r, h, hne⟩
    · simp [Docker.deleteInstance, Docker.getContainer, h, World.record]
    · simp [Docker.deleteInstance, Docker.getContainer, h, hne, World.record]
  · simp [Gcloud.deleteInstance, Gcloud.deleteWorker, hgcloud, World.record]

/-- A first aws call that terminates the instance and a second one that is
told it is gone; a docker daemon that shows another container; a gcloud
backend that reports the VM as not found. -/
theorem deleteInstance_absent_by_adapter_witness :
    (∃ w1 w2, deleteInstance stuckAws (.str "c-1") World.init =
        (.resolved stuckAws.terminateInstances.2, w1) ∧
      deleteInstance goneAws (.str "c-1") w1 = (.resolved goneAws.terminateInstances.2, w2)) ∧
    Docker.deleteInstance otherContainerDocker (.str "c-1") World.init =
      (.resolved .undefined,
        { World.init with
          trace := World.init.trace ++ [.inspect (.str "c-1"), .consoleError] }) ∧
    Gcloud.deleteInstance goneGcloud (.str "c-1") World.init =
      (.rejected notFoundError,
        { World.init with
          trace := World.init.trace ++ [.vmDelete goneGcloud.zoneName (.str "c-1")] }) :=
  deleteInstance_absent_by_adapter stuckAws goneAws otherContainerDocker goneGcloud (.str "c-1")
    World.init notFoundError rfl rfl (Or.inr ⟨{ Id := .str "c-2" }, rfl, by decide⟩) rfl

/-! ## The adapters' operations (C13) -/

/-- On a provider object without `stopInstance`, line 38 throws a `TypeError`
before any call is made. -/
theorem stopImageDelete_undefined_stop (p : Provider) (args : BakeArgs) (instanceId : JsVal)
    (w : World) (hstop : p.stopInstance = none) :
    stopImageDelete p args instanceId w =
      (.rejected (typeError "provider.stopInstance is not a function"), w) := by
  simp [stopImageDelete, callOp, hstop]

/-- C13 (the code at the failing input): the factory returns the docker adapter
for `'docker'`, and that module exports no `stopInstance`, while the aws and
gcloud modules export every operation the workflow invokes. A bake on the
docker adapter therefore creates the container, gets its address, sees the
probe answer, and then rejects with `TypeError: provider.stopInstance is not
a function`; `createImage` and `deleteInstance` are never reached. -/
theorem docker_bake_calls_undefined_stopInstance :
    create "docker" = some .docker ∧
    (∀ op, op ∈ workflowOperations → op ∈ moduleExports .aws ∧ op ∈ moduleExports .gcloud) ∧
    "stopInstance" ∉ moduleExports .docker ∧
    ∃ w, createInstanceAndImage readyEnv 300 stubArgs World.init =
        some (.rejected (typeError "provider.stopInstance is not a function"), w) ∧
      providerCalls w.trace =
        [.createInstance (createSpecOf stubArgs), .getPublicInstanceAddress (.str "c-1")] := by
  refine ⟨by decide, by decide, by decide, ?_⟩
  have hcreate : readyEnv.provider.createInstance = some (.ok (.str "c-1")) := by
    simp [readyEnv, adapterProvider, exported, moduleExports, dockerBackend]
  have haddr : readyEnv.provider.getPublicInstanceAddress =
      some (fun _ => .ok (.str "127.0.0.1")) := by
    simp [readyEnv, adapterProvider, exported, moduleExports, dockerBackend]
  have hstop : readyEnv.provider.stopInstance = none := by
    simp [readyEnv, adapterProvider, exported, moduleExports]
  rw [createInstanceAndImage_reaches_address readyEnv 300 stubArgs (.str "c-1")
    (.str "127.0.0.1") (fun _ => .ok (.str "127.0.0.1")) 0
    (by decide) (by decide) rfl hcreate haddr (by decide)
    (fun j hj => absurd hj (Nat.not_lt_zero j)) rfl (by decide)]
  rw [bakeFromAddress_body readyEnv 300 stubArgs (.str "c-1") (.str "127.0.0.1") _ 0 "ready"
    rfl (by decide) (fun j hj => absurd hj (Nat.not_lt_zero j)) rfl (by decide) (by decide)]
  rw [if_neg (by decide), stopImageDelete_undefined_stop readyEnv.provider stubArgs _ _ hstop]
  refine ⟨_, rfl, ?_⟩
  simp only [providerCalls_append, providerCalls_failedProbesEvents]
  simp [providerCalls, pollEvents]

/-! ## The probed URL (C14) -/

/-- C14 (the code at the failing input): `waitForConnectivity` never reads
`port`, so any two ports give the same run, and with port 8080 the probe of
address `10.0.0.5` requests `http://10.0.0.5`. -/
theorem waitForConnectivity_ignores_port :
    (∀ (env : Env) (fuel : Nat) (publicUrl : JsVal) (opts : ConnectivityOpts) (p : Nat)
        (w : World),
      waitForConnectivity env fuel publicUrl { opts with port := p } w =
        waitForConnectivity env fuel publicUrl opts w) ∧
    waitForConnectivity readyEnv 300 (.str "10.0.0.5") { port := 8080, logger := true }
        World.init =
      some (.resolved (.str "ready"),
        { trace := [.log "info", .fetch "http://10.0.0.5" 10000], addressPolls := 0,
          probes := 1, imageChecks := 0, instanceChecks := 0 }) := by
  refine ⟨fun _ _ _ _ _ _ => rfl, ?_⟩
  rw [waitForConnectivity_found readyEnv 300 (.str "10.0.0.5") { port := 8080, logger := true }
    0 "ready" (by decide) rfl (fun j hj => absurd hj (Nat.not_lt_zero j)) rfl (by decide)
    (by decide)]
  simp [failedProbesEvents, toStr]

end Mutti
